import Mathlib

/-!
Verification of the TCP chat server core (examples/tcp-chat/server) against
its natural-language specification.  The Go source is shallowly embedded:
Go maps become association lists, the per-connection `*Client` heap becomes
an explicit id-indexed session store, `time.Time` becomes a `Nat` count of
milliseconds, and every handler becomes a pure state transformer on
`ServerState`.  Non-deterministic id minting (`common.GenerateID`, random
hex) is modelled by a deterministic counter; the claims never depend on the
shape of an id.  Byte lengths (`len` on a Go string) are `String.utf8ByteSize`.
-/

namespace TcpChat

/-! ## Association-list helpers (Go map semantics) -/

/-- Lookup in an association list (a Go map read: `m[k]`). -/
def alook {α β : Type} [DecidableEq α] : List (α × β) → α → Option β
  | [], _ => none
  | (k', v) :: t, k => if k = k' then some v else alook t k

/-- Go map write `m[k] = v`: replace the binding in place, or append a new one. -/
def alSet {α β : Type} [DecidableEq α] : List (α × β) → α → β → List (α × β)
  | [], k, v => [(k, v)]
  | (k', v') :: t, k, v => if k = k' then (k, v) :: t else (k', v') :: alSet t k v

/-- Go map `delete(m, k)`. -/
def alErase {α β : Type} [DecidableEq α] : List (α × β) → α → List (α × β)
  | [], _ => []
  | (k', v) :: t, k => if k' = k then alErase t k else (k', v) :: alErase t k

/-- Update the value stored under `k`, if present (a write through a pointer
read out of a Go map). -/
def alUpd {α β : Type} [DecidableEq α] : List (α × β) → α → (β → β) → List (α × β)
  | [], _, _ => []
  | (k', v) :: t, k, f =>
    if k' = k then (k', f v) :: alUpd t k f else (k', v) :: alUpd t k f

/-- Go map read of an `int` counter: a missing key reads as zero. -/
def alGet0 {α : Type} [DecidableEq α] (l : List (α × Nat)) (k : α) : Nat :=
  (alook l k).getD 0

/-- Membership in a Go `map[string]bool` used as a set. -/
def setHas (l : List String) (k : String) : Bool :=
  l.contains k

/-- Insertion into a Go `map[string]bool` used as a set (`m[k] = true`). -/
def setAdd (l : List String) (k : String) : List String :=
  if l.contains k then l else l ++ [k]

/-- Removal from a Go `map[string]bool` used as a set (`delete(m, k)`). -/
def setDel (l : List String) (k : String) : List String :=
  l.filter fun x => x ≠ k

/-! ## Constants (`common/constants.go`) -/

def MaxConnections : Nat := 100
def MaxConnectionsPerIP : Nat := 5
def MaxMessageSize : Nat := 4096
def MaxNicknameLength : Nat := 20
def MinNicknameLength : Nat := 3
def MaxRoomNameLength : Nat := 30
def MinRoomNameLength : Nat := 3
def MaxFileSize : Int := 100 * 1024 * 1024
def MaxFileNameLength : Nat := 255
def MessagesPerSecond : Nat := 10
def RoomsPerUser : Nat := 5
def FileTransfersPerUser : Nat := 3
/-- `5 * time.Minute` in milliseconds. -/
def FileTransferTimeout : Nat := 5 * 60 * 1000
/-- `30 * time.Minute` in milliseconds. -/
def EmptyRoomTimeout : Nat := 30 * 60 * 1000
/-- `time.Second` in milliseconds. -/
def OneSecond : Nat := 1000

/-! ## Protocol data (`common/protocol.go`)

`MessageType`, `UserStatus` and `RoomAction` are string types in Go; we keep
them as `String` constants so that zero values ("" ) behave as in Go. -/

def TypeText : String := "TEXT"
def TypeFile : String := "FILE"
def TypeFileChunk : String := "FILE_CHUNK"
def TypeFileComplete : String := "FILE_COMPLETE"
def TypeStatus : String := "STATUS"
def TypeRoom : String := "ROOM"
def TypeInvite : String := "INVITE"
def TypeInviteResp : String := "INVITE_RESP"
def TypeUserList : String := "USER_LIST"
def TypeError : String := "ERROR"
def TypeConnect : String := "CONNECT"
def TypeDisconnect : String := "DISCONNECT"
def TypeAck : String := "ACK"

def StatusActive : String := "ACTIVE"
def StatusBusy : String := "BUSY"
def StatusInvisible : String := "INVISIBLE"

def RoomCreate : String := "CREATE"
def RoomJoin : String := "JOIN"
def RoomLeave : String := "LEAVE"
def RoomLeaveConfirm : String := "LEAVE_CONFIRM"
def RoomMsg : String := "MSG"
def RoomMembers : String := "MEMBERS"
def RoomKick : String := "KICK"
def RoomDelete : String := "DELETE"
def RoomSetTopic : String := "TOPIC"

/-- `common.Message`: every field defaults to its Go zero value. -/
structure Message where
  type : String := ""
  sender : String := ""
  recipient : String := ""
  room : String := ""
  content : String := ""
  status : String := ""
  action : String := ""
  filename : String := ""
  filesize : Int := 0
  fileID : String := ""
  chunkNum : Int := 0
  totalChunks : Int := 0
  data : List Nat := []
  users : List String := []
  timestamp : Nat := 0
  error : String := ""
deriving Repr, DecidableEq

/-- `common.NewTextMessage`. -/
def newTextMessage (sender recipient content : String) (now : Nat) : Message :=
  { type := TypeText, sender, recipient, content, timestamp := now }

/-- `common.NewBroadcastMessage`. -/
def newBroadcastMessage (sender content : String) (now : Nat) : Message :=
  { type := TypeText, sender, recipient := "*", content, timestamp := now }

/-- `common.NewErrorMessage`. -/
def newErrorMessage (sender recipient error : String) (now : Nat) : Message :=
  { type := TypeError, sender, recipient, error, timestamp := now }

/-! ## Validators (`server/validator.go`)

Go's `len` on a string counts bytes, so lengths use `String.utf8ByteSize`.
Each validator returns `none` for ok and `some msg` for
`validation-error(msg)`, mirroring Go's `error` result. -/

/-- Byte length of a Go string. -/
def blen (s : String) : Nat := s.utf8ByteSize

/-- One character of the class in `NicknamePattern = "^[a-zA-Z0-9_-]+$"`. -/
def nickChar (c : Char) : Bool :=
  (('a' ≤ c && c ≤ 'z') || ('A' ≤ c && c ≤ 'Z') || ('0' ≤ c && c ≤ '9')
    || c = '_' || c = '-')

/-- `nicknameRegex.MatchString`: the anchored pattern matches the whole
string, requiring at least one character. -/
def nicknameMatch (s : String) : Bool :=
  !s.data.isEmpty && s.data.all nickChar

/-- One character of the class in `RoomNamePattern = "^[a-zA-Z0-9_\\- ]+$"`. -/
def roomChar (c : Char) : Bool :=
  nickChar c || c = ' '

def roomNameMatch (s : String) : Bool :=
  !s.data.isEmpty && s.data.all roomChar

/-- `ValidateNickname`. -/
def ValidateNickname (nickname : String) : Option String :=
  if blen nickname < MinNicknameLength then
    some ("nickname must be at least " ++ toString MinNicknameLength
      ++ " characters long")
  else if blen nickname > MaxNicknameLength then
    some ("nickname cannot exceed " ++ toString MaxNicknameLength ++ " characters")
  else if !nicknameMatch nickname then
    some "nickname can only contain letters, numbers, underscores, and hyphens"
  else none

/-- `ValidateRoomName` (`strings.TrimSpace` is modelled by `String.trim`). -/
def ValidateRoomName (roomName : String) : Option String :=
  let r := roomName.trim
  if blen r < MinRoomNameLength then
    some ("room name must be at least " ++ toString MinRoomNameLength
      ++ " characters long")
  else if blen r > MaxRoomNameLength then
    some ("room name cannot exceed " ++ toString MaxRoomNameLength ++ " characters")
  else if !roomNameMatch r then
    some "room name can only contain letters, numbers, underscores, hyphens, and spaces"
  else none

/-- `ValidateMessage`. -/
def ValidateMessage (content : String) : Option String :=
  if blen content = 0 then some "message cannot be empty"
  else if blen content > MaxMessageSize then
    some ("message cannot exceed " ++ toString MaxMessageSize ++ " characters")
  else none

/-! ### `path/filepath.Clean` (unix), used by `ValidateFileName` -/

/-- The backtracking step of Go's `Clean` on seeing `..`: starting from
`w = buf.length - 1`, walk `w` down while `w > dotdot` and `buf[w]` is not a
separator; the buffer is then truncated to `w`. -/
def cleanBack (buf : List Char) (dotdot : Nat) : Nat → Nat
  | 0 => 0
  | w + 1 =>
    if w + 1 > dotdot && buf.getD (w + 1) ' ' ≠ '/' then cleanBack buf dotdot w
    else w + 1

/-- The main loop of Go's `filepath.Clean`: `buf` is the output buffer
(`out[0..w)`), `dotdot` the low-water mark below which `..` may not erase.
The explicit fuel (initialised to the input length, which the loop never
exceeds since every iteration consumes at least one input character) keeps
the recursion structural, so that the function evaluates by reduction. -/
def cleanLoop (rooted : Bool) : Nat → List Char → Nat → List Char → List Char
  | 0, buf, _, _ => buf
  | _, buf, _, [] => buf
  | fuel + 1, buf, dotdot, c :: rest =>
    if c = '/' then
      cleanLoop rooted fuel buf dotdot rest
    else if c = '.' && (rest.isEmpty || rest.headD ' ' = '/') then
      cleanLoop rooted fuel buf dotdot rest
    else if c = '.' && rest.headD ' ' = '.'
        && (rest.tail.isEmpty || rest.tail.headD ' ' = '/') then
      if buf.length > dotdot then
        let w := cleanBack buf dotdot (buf.length - 1)
        cleanLoop rooted fuel (buf.take w) dotdot rest.tail
      else if !rooted then
        let buf2 := (if buf.length > 0 then buf ++ ['/'] else buf) ++ ['.', '.']
        cleanLoop rooted fuel buf2 buf2.length rest.tail
      else
        cleanLoop rooted fuel buf dotdot rest.tail
    else
      let buf1 := if (rooted && buf.length ≠ 1) || (!rooted && buf.length ≠ 0)
        then buf ++ ['/'] else buf
      cleanLoop rooted fuel (buf1 ++ c :: rest.takeWhile (fun x => x ≠ '/')) dotdot
        (rest.dropWhile (fun x => x ≠ '/'))

/-- `filepath.Clean` for unix separators. -/
def pathClean (path : String) : String :=
  let cs := path.data
  match cs with
  | [] => "."
  | c :: rest =>
    let rooted := c = '/'
    let buf := if rooted then cleanLoop true cs.length ['/'] 1 rest
      else cleanLoop false cs.length [] 0 cs
    if buf.isEmpty then "." else String.mk buf

/-- `l₂` begins with `l₁` (`strings.HasPrefix` on character lists). -/
def lPre : List Char → List Char → Bool
  | [], _ => true
  | _ :: _, [] => false
  | a :: as, b :: bs => a = b && lPre as bs

/-- `strings.Contains hay pat` on character lists. -/
def hasSub (pat : List Char) : List Char → Bool
  | [] => lPre pat []
  | h :: t => lPre pat (h :: t) || hasSub pat t

/-- `strings.Contains s ".."`. -/
def containsDotDot (s : String) : Bool := hasSub ['.', '.'] s.data

/-- `strings.ContainsAny s "/\\"`. -/
def containsSep (s : String) : Bool :=
  s.data.any fun c => c = '/' || c = '\\'

/-- `strings.HasPrefix s "."`. -/
def startsWithDot (s : String) : Bool :=
  match s.data with
  | [] => false
  | c :: _ => c = '.'

/-- `ValidateFileName`. -/
def ValidateFileName (filename : String) : Option String :=
  if blen filename = 0 then some "filename cannot be empty"
  else if blen filename > MaxFileNameLength then
    some ("filename cannot exceed " ++ toString MaxFileNameLength ++ " characters")
  else
    let cleanPath := pathClean filename
    if containsDotDot cleanPath || containsSep cleanPath then
      some "filename cannot contain path separators or parent directory references"
    else if startsWithDot filename then
      some "hidden files are not allowed"
    else none

/-- `ValidateFileSize`. -/
def ValidateFileSize (size : Int) : Option String :=
  if size ≤ 0 then some "file size must be positive"
  else if size > MaxFileSize then
    some ("file size cannot exceed " ++ toString MaxFileSize ++ " bytes")
  else none

/-! ## Rate limiter (`server/validator.go`, second half)

Times are `Nat` milliseconds.  `net.Addr` is modelled as an (ip, port) pair,
so `net.SplitHostPort` is the projection to `.ip` and cannot fail. -/

structure Addr where
  ip : String
  port : String
deriving Repr, DecidableEq

/-- `userRateLimit`. -/
structure UserRateLimit where
  messages : Nat := 0
  lastReset : Nat := 0
deriving Repr, DecidableEq

/-- `RateLimiter` (mutexes and the cleanup ticker carry no state we model). -/
structure RateLimiter where
  totalConnections : Nat := 0
  connectionsByIP : List (String × Nat) := []
  messageRates : List (String × UserRateLimit) := []
  roomsPerUser : List (String × Nat) := []
  transfersPerUser : List (String × Nat) := []
deriving Repr, DecidableEq

/-- `RateLimiter.CanConnect`: pure check, no mutation. -/
def canConnect (rl : RateLimiter) (addr : Addr) : Option String :=
  if rl.totalConnections ≥ MaxConnections then
    some ("server has reached maximum connection limit ("
      ++ toString MaxConnections ++ ")")
  else if alGet0 rl.connectionsByIP addr.ip ≥ MaxConnectionsPerIP then
    some ("IP " ++ addr.ip ++ " has reached maximum connection limit ("
      ++ toString MaxConnectionsPerIP ++ ")")
  else none

/-- `RateLimiter.AddConnection`. -/
def addConnection (rl : RateLimiter) (addr : Addr) : RateLimiter :=
  { rl with
    totalConnections := rl.totalConnections + 1
    connectionsByIP :=
      alSet rl.connectionsByIP addr.ip (alGet0 rl.connectionsByIP addr.ip + 1) }

/-- `RateLimiter.RemoveConnection`. -/
def removeConnection (rl : RateLimiter) (addr : Addr) : RateLimiter :=
  let rl1 := if rl.totalConnections > 0 then
    { rl with totalConnections := rl.totalConnections - 1 } else rl
  let count := alGet0 rl1.connectionsByIP addr.ip
  if count > 0 then
    if count = 1 then
      { rl1 with connectionsByIP := alErase rl1.connectionsByIP addr.ip }
    else
      { rl1 with connectionsByIP := alSet rl1.connectionsByIP addr.ip (count - 1) }
  else rl1

/-- `RateLimiter.CanSendMessage`: creates the per-nickname entry on first
use, lazily resets the counter after a second, and rejects at the limit;
the (possibly reset) entry is stored back in every case. -/
def canSendMessage (rl : RateLimiter) (nickname : String) (now : Nat) :
    Option String × RateLimiter :=
  let ul := (alook rl.messageRates nickname).getD { messages := 0, lastReset := now }
  let ul1 := if now - ul.lastReset ≥ OneSecond then
    { messages := 0, lastReset := now } else ul
  if ul1.messages ≥ MessagesPerSecond then
    (some ("message rate limit exceeded (" ++ toString MessagesPerSecond
        ++ " messages per second)"),
      { rl with messageRates := alSet rl.messageRates nickname ul1 })
  else
    (none,
      { rl with
        messageRates :=
          alSet rl.messageRates nickname { ul1 with messages := ul1.messages + 1 } })

/-- `RateLimiter.CanCreateRoom`: pure check. -/
def canCreateRoom (rl : RateLimiter) (nickname : String) : Option String :=
  if alGet0 rl.roomsPerUser nickname ≥ RoomsPerUser then
    some ("room creation limit exceeded (" ++ toString RoomsPerUser
      ++ " rooms per user)")
  else none

/-- `RateLimiter.AddRoom`. -/
def rlAddRoom (rl : RateLimiter) (nickname : String) : RateLimiter :=
  { rl with
    roomsPerUser := alSet rl.roomsPerUser nickname (alGet0 rl.roomsPerUser nickname + 1) }

/-- `RateLimiter.RemoveRoom`. -/
def rlRemoveRoom (rl : RateLimiter) (nickname : String) : RateLimiter :=
  let count := alGet0 rl.roomsPerUser nickname
  if count > 0 then
    if count = 1 then { rl with roomsPerUser := alErase rl.roomsPerUser nickname }
    else { rl with roomsPerUser := alSet rl.roomsPerUser nickname (count - 1) }
  else rl

/-- `RateLimiter.CanStartFileTransfer`: pure check. -/
def canStartFileTransfer (rl : RateLimiter) (nickname : String) : Option String :=
  if alGet0 rl.transfersPerUser nickname ≥ FileTransfersPerUser then
    some ("file transfer limit exceeded (" ++ toString FileTransfersPerUser
      ++ " concurrent transfers per user)")
  else none

/-- `RateLimiter.AddFileTransfer`. -/
def rlAddFileTransfer (rl : RateLimiter) (nickname : String) : RateLimiter :=
  { rl with
    transfersPerUser :=
      alSet rl.transfersPerUser nickname (alGet0 rl.transfersPerUser nickname + 1) }

/-- `RateLimiter.RemoveFileTransfer`. -/
def rlRemoveFileTransfer (rl : RateLimiter) (nickname : String) : RateLimiter :=
  let count := alGet0 rl.transfersPerUser nickname
  if count > 0 then
    if count = 1 then
      { rl with transfersPerUser := alErase rl.transfersPerUser nickname }
    else { rl with transfersPerUser := alSet rl.transfersPerUser nickname (count - 1) }
  else rl

/-- `RateLimiter.RemoveUser`. -/
def rlRemoveUser (rl : RateLimiter) (nickname : String) : RateLimiter :=
  { rl with
    messageRates := alErase rl.messageRates nickname
    roomsPerUser := alErase rl.roomsPerUser nickname
    transfersPerUser := alErase rl.transfersPerUser nickname }

/-! ## Rooms (`server/room.go`) -/

/-- `Room` (the mutex carries no state). -/
structure Room where
  id : String
  name : String
  description : String := ""
  creator : String
  members : List String
  invitations : List String := []
  createdAt : Nat
deriving Repr, DecidableEq

/-- `NewRoom` (the id is minted by the caller, see `createRoom`). -/
def newRoom (id name creator : String) (now : Nat) : Room :=
  { id, name, creator, members := [creator], createdAt := now }

/-- `Room.AddMember`: insert the member and drop any pending invitation. -/
def roomAddMember (r : Room) (nickname : String) : Room :=
  { r with members := setAdd r.members nickname
           invitations := setDel r.invitations nickname }

/-- `Room.RemoveMember`. -/
def roomRemoveMember (r : Room) (nickname : String) : Room :=
  { r with members := setDel r.members nickname }

/-- `Room.IsMember`. -/
def roomIsMember (r : Room) (nickname : String) : Bool :=
  setHas r.members nickname

/-- `Room.InviteUser`. -/
def roomInviteUser (r : Room) (nickname : String) : Room :=
  { r with invitations := setAdd r.invitations nickname }

/-- `Room.IsInvited`. -/
def roomIsInvited (r : Room) (nickname : String) : Bool :=
  setHas r.invitations nickname

/-! ## Client sessions (`server/client.go`)

A session is stored in an id-indexed heap (`ServerState.sessions`); the
nickname registry maps nicknames to session ids, which models Go's
registry of `*Client` pointers and preserves aliasing. -/

/-- `Client`.  `sendChan` is the bounded outbound queue (capacity 256),
`remoteAddr` is `none` while the Go field is the empty string. -/
structure Client where
  id : Nat
  nickname : String := ""
  remoteAddr : Option Addr := none
  status : String := StatusActive
  rooms : List String := []
  sendChan : List Message := []
deriving Repr, DecidableEq

/-- `NewClient`. -/
def newClient (id : Nat) (addr : Addr) : Client :=
  { id, remoteAddr := some addr }

/-- `Client.SendMessage`: try-send into the bounded queue, dropping the
message when the queue is full (capacity 256), never blocking. -/
def clientSend (c : Client) (m : Message) : Client :=
  if c.sendChan.length < 256 then { c with sendChan := c.sendChan ++ [m] } else c

/-- `Client.AddRoom`. -/
def clientAddRoom (c : Client) (roomID : String) : Client :=
  { c with rooms := setAdd c.rooms roomID }

/-- `Client.RemoveRoom`. -/
def clientRemoveRoom (c : Client) (roomID : String) : Client :=
  { c with rooms := setDel c.rooms roomID }

/-! ## File transfers (`common/protocol.go`) -/

/-- `common.FileTransfer`. -/
structure FileTransfer where
  fileID : String := ""
  filename : String := ""
  filesize : Int := 0
  sender : String := ""
  recipient : String := ""
  totalChunks : Int := 0
  receivedChunks : List (Int × List Nat) := []
  startTime : Nat := 0
deriving Repr, DecidableEq

/-- `FileTransfer.AddChunk` (a duplicate chunk number overwrites). -/
def ftAddChunk (ft : FileTransfer) (chunkNum : Int) (data : List Nat) : FileTransfer :=
  { ft with receivedChunks := alSet ft.receivedChunks chunkNum data }

/-- `FileTransfer.IsComplete`: the number of distinct received chunk
indices equals `TotalChunks`. -/
def ftIsComplete (ft : FileTransfer) : Bool :=
  (ft.receivedChunks.length : Int) = ft.totalChunks

/-! ## The server (`server/main.go`) -/

/-- `Server`: the nickname registry (`clients`), the session heap, the room
registry, the transfer registry and the rate limiter.  `idCounter`
deterministically models `common.GenerateID`. -/
structure ServerState where
  clients : List (String × Nat) := []
  sessions : List (Nat × Client) := []
  rooms : List (String × Room) := []
  fileTransfers : List (String × FileTransfer) := []
  rateLimiter : RateLimiter := {}
  idCounter : Nat := 0
deriving Repr, DecidableEq

/-- `Server.GetClient`: resolve a nickname to its session. -/
def getClient (s : ServerState) (nickname : String) : Option (Nat × Client) :=
  (alook s.clients nickname).bind fun cid =>
    (alook s.sessions cid).map fun c => (cid, c)

/-- Enqueue a message to the session stored under `cid`
(`client.SendMessage` through the registry). -/
def sendTo (s : ServerState) (cid : Nat) (m : Message) : ServerState :=
  { s with sessions := alUpd s.sessions cid (fun c => clientSend c m) }

/-- One step of `Server.BroadcastMessage`'s `Range`: skip the excluded
nickname and invisible clients that are not the message's sender. -/
def broadcastStep (m : Message) (exclude : String) (acc : ServerState)
    (p : String × Nat) : ServerState :=
  match alook acc.sessions p.2 with
  | none => acc
  | some c =>
    if c.nickname = exclude then acc
    else if c.status = StatusInvisible && m.sender ≠ c.nickname then acc
    else sendTo acc p.2 m

/-- `Server.BroadcastMessage`'s `Range` over an explicit entry list. -/
def broadcastOver (l : List (String × Nat)) (s : ServerState) (m : Message)
    (exclude : String) : ServerState :=
  l.foldl (broadcastStep m exclude) s

/-- `Server.BroadcastMessage`. -/
def broadcastMessage (s : ServerState) (m : Message) (exclude : String) :
    ServerState :=
  broadcastOver s.clients s m exclude

/-- The `Users` list built by `Server.BroadcastUserList`: one
`"<nickname>:<status>"` entry per registered non-invisible client. -/
def userListUsers (s : ServerState) : List String :=
  s.clients.foldl (fun users p =>
    match alook s.sessions p.2 with
    | none => users
    | some c =>
      if c.status ≠ StatusInvisible then users ++ [c.nickname ++ ":" ++ c.status]
      else users) []

/-- `Server.BroadcastUserList`: build the user list and broadcast it with
an empty exclude (all other `Message` fields keep their zero values). -/
def broadcastUserList (s : ServerState) : ServerState :=
  broadcastMessage s { type := TypeUserList, users := userListUsers s } ""

/-- `Server.RegisterClient`: validate, check-and-insert under the
registration mutex, broadcast the user list, welcome the client, announce
to the others.  Returns `(state, success, error)`. -/
def registerClient (s : ServerState) (cid : Nat) (nickname : String) (now : Nat) :
    ServerState × Bool × Option String :=
  match ValidateNickname nickname with
  | some e => (s, false, some e)
  | none =>
    if (alook s.clients nickname).isSome then
      (s, false, some ("nickname '" ++ nickname ++ "' is already taken"))
    else
      let s1 := { s with
        sessions := alUpd s.sessions cid (fun c => { c with nickname := nickname })
        clients := alSet s.clients nickname cid }
      let s2 := broadcastUserList s1
      let s3 := sendTo s2 cid
        (newTextMessage "Server" nickname ("Welcome to the chat, " ++ nickname ++ "!") now)
      let s4 := broadcastMessage s3
        (newBroadcastMessage "Server" (nickname ++ " has joined the chat") now) nickname
      (s4, true, none)

/-- `RoomManager.CreateRoom` (mints the id from the server's counter). -/
def createRoom (s : ServerState) (name creator : String) (now : Nat) :
    ServerState × Room :=
  let room := newRoom ("room_" ++ toString s.idCounter) name creator now
  ({ s with rooms := alSet s.rooms room.id room, idCounter := s.idCounter + 1 }, room)

/-- `RoomManager.GetUserRooms`: ids of the rooms whose member set holds the
nickname, in registry order. -/
def getUserRooms (s : ServerState) (nickname : String) : List String :=
  (s.rooms.filter fun p => roomIsMember p.2 nickname).map Prod.fst

/-- `RoomManager.BroadcastToRoom`: snapshot the member list, then deliver
to each member's session, skipping invisible members other than the sender. -/
def broadcastToRoom (s : ServerState) (roomID : String) (msg : Message) :
    ServerState :=
  match alook s.rooms roomID with
  | none => s
  | some room =>
    room.members.foldl (fun acc member =>
      match getClient acc member with
      | none => acc
      | some (cid, c) =>
        if c.status = StatusInvisible && member ≠ msg.sender then acc
        else sendTo acc cid msg) s

/-- `Server.UnregisterClient`: a session that never registered (empty
nickname) is returned untouched; otherwise remove it from the registry,
from all rooms (notifying them), announce the departure, broadcast the
user list, and clean both rate-limiter records. -/
def unregisterClient (s : ServerState) (cid : Nat) (now : Nat) : ServerState :=
  match alook s.sessions cid with
  | none => s
  | some c =>
    if c.nickname = "" then s
    else
      let s1 := { s with clients := alErase s.clients c.nickname }
      let roomIds := getUserRooms s1 c.nickname
      let s2 := roomIds.foldl (fun acc rid =>
        let acc1 := { acc with
          rooms := alUpd acc.rooms rid (fun r => roomRemoveMember r c.nickname) }
        broadcastToRoom acc1 rid
          { newTextMessage "Server" ""
              (c.nickname ++ " has disconnected from the room") now with room := rid }) s1
      let s3 := broadcastMessage s2
        (newBroadcastMessage "Server" (c.nickname ++ " has left the chat") now) ""
      let s4 := broadcastUserList s3
      let s5 := { s4 with rateLimiter := rlRemoveUser s4.rateLimiter c.nickname }
      match c.remoteAddr with
      | some addr => { s5 with rateLimiter := removeConnection s5.rateLimiter addr }
      | none => s5

/-- `Server.handleNewConnection`: count the admitted connection and create
the session (its read/write pumps are the surrounding step relation). -/
def handleNewConnection (s : ServerState) (addr : Addr) : ServerState × Nat :=
  let cid := s.idCounter
  ({ s with
      rateLimiter := addConnection s.rateLimiter addr
      sessions := s.sessions ++ [(cid, newClient cid addr)]
      idCounter := cid + 1 }, cid)

/-- `Server.handleRoomMessage`.  `c` is the per-connection `*Client` the
dispatcher passed in (looked up once in `handleMessage`); its nickname does
not change during room handling. -/
def handleRoomMessage (s : ServerState) (cid : Nat) (c : Client) (msg : Message)
    (now : Nat) : ServerState :=
  if msg.action = RoomCreate then
    match canCreateRoom s.rateLimiter c.nickname with
    | some e => sendTo s cid (newErrorMessage "Server" c.nickname e now)
    | none =>
      match ValidateRoomName msg.content with
      | some e => sendTo s cid (newErrorMessage "Server" c.nickname e now)
      | none =>
        let (s1, room) := createRoom s msg.content.trim c.nickname now
        let s2 := { s1 with
          sessions := alUpd s1.sessions cid (fun cc => clientAddRoom cc room.id) }
        let s3 := { s2 with rateLimiter := rlAddRoom s2.rateLimiter c.nickname }
        sendTo s3 cid
          { type := TypeRoom, action := RoomCreate, room := room.id,
            content := "Room '" ++ room.name ++ "' created successfully" }
  else if msg.action = RoomJoin then
    match alook s.rooms msg.room with
    | some room =>
      if !roomIsMember room c.nickname then
        let s1 := { s with
          rooms := alUpd s.rooms msg.room (fun r => roomAddMember r c.nickname) }
        let s2 := { s1 with
          sessions := alUpd s1.sessions cid (fun cc => clientAddRoom cc room.id) }
        let s3 := broadcastToRoom s2 msg.room
          { newTextMessage "Server" "" (c.nickname ++ " has joined the room") now
            with room := msg.room }
        sendTo s3 cid
          { type := TypeRoom, action := RoomJoin, room := room.id,
            content := "Joined room '" ++ room.name ++ "'" }
      else s
    | none => sendTo s cid (newErrorMessage "Server" c.nickname "Room not found" now)
  else if msg.action = RoomLeave then
    match alook s.rooms msg.room with
    | some room =>
      let s1 := { s with
        rooms := alUpd s.rooms msg.room (fun r => roomRemoveMember r c.nickname) }
      let s2 := { s1 with
        sessions := alUpd s1.sessions cid (fun cc => clientRemoveRoom cc msg.room) }
      let s3 := sendTo s2 cid
        { type := TypeRoom, action := RoomLeaveConfirm,
          room := room.id, content := room.name }
      broadcastToRoom s3 msg.room
        { newTextMessage "Server" "" (c.nickname ++ " has left the room") now
          with room := msg.room }
    | none => s
  else if msg.action = RoomMembers then
    match alook s.rooms msg.room with
    | some room =>
      if !roomIsMember room c.nickname then
        sendTo s cid (newErrorMessage "Server" c.nickname
          "You are not a member of this room" now)
      else
        let memberList := room.members.map fun member =>
          let status := match getClient s member with
            | some (_, mc) => mc.status
            | none => "offline"
          member ++ " (" ++ status ++ ")"
        let roomInfo := "Room '" ++ room.name ++ "'"
        let roomInfo := if room.description ≠ "" then
          roomInfo ++ " (Topic: " ++ room.description ++ ")" else roomInfo
        sendTo s cid
          { type := TypeRoom, action := RoomMembers, room := room.id,
            content := roomInfo ++ " members: " ++ String.intercalate ", " memberList }
    | none => sendTo s cid (newErrorMessage "Server" c.nickname "Room not found" now)
  else if msg.action = RoomKick then
    match alook s.rooms msg.room with
    | some room =>
      if room.creator ≠ c.nickname then
        sendTo s cid (newErrorMessage "Server" c.nickname
          "Only the room creator can kick members" now)
      else if !roomIsMember room msg.recipient then
        sendTo s cid (newErrorMessage "Server" c.nickname
          (msg.recipient ++ " is not a member of this room") now)
      else if msg.recipient = c.nickname then
        sendTo s cid (newErrorMessage "Server" c.nickname "You cannot kick yourself" now)
      else
        let s1 := { s with
          rooms := alUpd s.rooms msg.room (fun r => roomRemoveMember r msg.recipient) }
        let s2 := match getClient s1 msg.recipient with
          | some (kcid, _) =>
            let sa := { s1 with
              sessions := alUpd s1.sessions kcid (fun cc => clientRemoveRoom cc msg.room) }
            sendTo sa kcid
              { type := TypeRoom, action := RoomLeaveConfirm,
                room := room.id,
                content := "You have been kicked from room '" ++ room.name ++ "'" }
          | none => s1
        let s3 := broadcastToRoom s2 msg.room
          { newTextMessage "Server" ""
              (msg.recipient ++ " has been kicked from the room by " ++ c.nickname) now
            with room := msg.room }
        sendTo s3 cid (newTextMessage "Server" c.nickname
          (msg.recipient ++ " has been kicked from the room") now)
    | none => sendTo s cid (newErrorMessage "Server" c.nickname "Room not found" now)
  else if msg.action = RoomDelete then
    match alook s.rooms msg.room with
    | some room =>
      if room.creator ≠ c.nickname then
        sendTo s cid (newErrorMessage "Server" c.nickname
          "Only the room creator can delete the room" now)
      else
        let s1 := broadcastToRoom s msg.room
          { newTextMessage "Server" ""
              ("Room '" ++ room.name ++ "' has been deleted by the creator") now
            with room := msg.room }
        let s2 := room.members.foldl (fun acc member =>
          match getClient acc member with
          | some (mcid, _) =>
            let sa := { acc with
              sessions := alUpd acc.sessions mcid (fun cc => clientRemoveRoom cc msg.room) }
            sendTo sa mcid
              { type := TypeRoom, action := RoomLeaveConfirm,
                room := room.id,
                content := "Room '" ++ room.name ++ "' has been deleted" }
          | none => acc) s1
        let s3 := { s2 with rooms := alErase s2.rooms msg.room }
        sendTo s3 cid (newTextMessage "Server" c.nickname
          ("Room '" ++ room.name ++ "' has been deleted") now)
    | none => sendTo s cid (newErrorMessage "Server" c.nickname "Room not found" now)
  else if msg.action = RoomSetTopic then
    match alook s.rooms msg.room with
    | some room =>
      if !roomIsMember room c.nickname then
        sendTo s cid (newErrorMessage "Server" c.nickname
          "You must be a member to set the room topic" now)
      else
        let s1 := { s with
          rooms := alUpd s.rooms msg.room (fun r => { r with description := msg.content }) }
        let s2 := broadcastToRoom s1 msg.room
          { newTextMessage "Server" ""
              (c.nickname ++ " set the room topic to: " ++ msg.content) now
            with room := msg.room }
        sendTo s2 cid (newTextMessage "Server" c.nickname "Room topic updated" now)
    | none => sendTo s cid (newErrorMessage "Server" c.nickname "Room not found" now)
  else s

/-- `Server.handleInviteMessage`. -/
def handleInviteMessage (s : ServerState) (cid : Nat) (c : Client) (msg : Message)
    (now : Nat) : ServerState :=
  match alook s.rooms msg.room with
  | none => sendTo s cid (newErrorMessage "Server" c.nickname "Room not found" now)
  | some room =>
    if !roomIsMember room c.nickname then
      sendTo s cid (newErrorMessage "Server" c.nickname
        "You are not a member of this room" now)
    else
      match getClient s msg.recipient with
      | some (rcid, _) =>
        let s1 := { s with
          rooms := alUpd s.rooms msg.room (fun r => roomInviteUser r msg.recipient) }
        let s2 := sendTo s1 rcid
          { type := TypeInvite, sender := c.nickname,
            recipient := msg.recipient, room := msg.room,
            content := c.nickname ++ " invited you to join room '" ++ room.name ++ "'" }
        sendTo s2 cid (newTextMessage "Server" c.nickname
          ("Invitation sent to " ++ msg.recipient) now)
      | none => sendTo s cid (newErrorMessage "Server" c.nickname
          ("User " ++ msg.recipient ++ " not found") now)

/-- `Server.handleInviteResponse`. -/
def handleInviteResponse (s : ServerState) (cid : Nat) (c : Client) (msg : Message)
    (now : Nat) : ServerState :=
  match alook s.rooms msg.room with
  | none => sendTo s cid (newErrorMessage "Server" c.nickname "Room no longer exists" now)
  | some room =>
    if msg.content = "accept" && roomIsInvited room c.nickname then
      let s1 := { s with
        rooms := alUpd s.rooms msg.room (fun r => roomAddMember r c.nickname) }
      let s2 := { s1 with
        sessions := alUpd s1.sessions cid (fun cc => clientAddRoom cc room.id) }
      let roomInfo := if room.description ≠ "" then
        room.name ++ " - Topic: " ++ room.description else room.name
      let s3 := sendTo s2 cid
        { type := TypeRoom, action := RoomJoin,
          room := room.id, content := roomInfo }
      broadcastToRoom s3 msg.room
        { newTextMessage "Server" "" (c.nickname ++ " has joined the room") now
          with room := msg.room }
    else if msg.content = "decline" then
      let s1 := { s with
        rooms := alUpd s.rooms msg.room
          (fun r => { r with invitations := setDel r.invitations c.nickname }) }
      sendTo s1 cid (newTextMessage "Server" c.nickname "Invitation declined" now)
    else s

/-- `Server.handleFileTransferInit`. -/
def handleFileTransferInit (s : ServerState) (cid : Nat) (c : Client) (msg : Message)
    (now : Nat) : ServerState :=
  match canStartFileTransfer s.rateLimiter c.nickname with
  | some e => sendTo s cid (newErrorMessage "Server" c.nickname e now)
  | none =>
    match ValidateFileName msg.filename with
    | some e => sendTo s cid (newErrorMessage "Server" c.nickname e now)
    | none =>
      match ValidateFileSize msg.filesize with
      | some e => sendTo s cid (newErrorMessage "Server" c.nickname e now)
      | none =>
        match getClient s msg.recipient with
        | none => sendTo s cid (newErrorMessage "Server" c.nickname
            ("User " ++ msg.recipient ++ " not found") now)
        | some (rcid, _) =>
          let ft : FileTransfer :=
            { fileID := msg.fileID, filename := msg.filename,
              filesize := msg.filesize, sender := c.nickname,
              recipient := msg.recipient, totalChunks := msg.totalChunks,
              startTime := msg.timestamp }
          let s1 := { s with
            fileTransfers := alSet s.fileTransfers msg.fileID ft
            rateLimiter := rlAddFileTransfer s.rateLimiter c.nickname }
          sendTo s1 rcid msg

/-- `Server.handleFileChunk`: record the chunk; if the recipient is still
connected, forward it, and on completion send `FILE_COMPLETE` to the
recipient and the sending session and delete the transfer.  An unknown
`FileID` is dropped silently. -/
def handleFileChunk (s : ServerState) (cid : Nat) (msg : Message) : ServerState :=
  match alook s.fileTransfers msg.fileID with
  | none => s
  | some ft =>
    let ft1 := ftAddChunk ft msg.chunkNum msg.data
    let s1 := { s with fileTransfers := alSet s.fileTransfers msg.fileID ft1 }
    match getClient s1 ft1.recipient with
    | none => s1
    | some (rcid, _) =>
      let s2 := sendTo s1 rcid msg
      if ftIsComplete ft1 then
        let completeMsg : Message :=
          { type := TypeFileComplete,
            fileID := msg.fileID, filename := ft1.filename }
        let s3 := sendTo s2 rcid completeMsg
        let s4 := sendTo s3 cid completeMsg
        { s4 with fileTransfers := alErase s4.fileTransfers msg.fileID }
      else s2

/-- `Server.HandleMessage`: the dispatcher.  The second component is the
`error` return (non-`none` only for an unknown message type; the read pump
turns it into an ERROR frame). -/
def handleMessage (s : ServerState) (cid : Nat) (msg : Message) (now : Nat) :
    ServerState × Option String :=
  match alook s.sessions cid with
  | none => (s, none)
  | some c =>
    if msg.type = TypeConnect then
      let (s1, success, err) := registerClient s cid msg.content now
      if success then
        (sendTo s1 cid (newTextMessage "Server" msg.sender "Connected successfully" now),
          none)
      else
        (sendTo s1 cid (newErrorMessage "Server" msg.sender (err.getD "") now), none)
    else if msg.type = TypeText then
      match canSendMessage s.rateLimiter c.nickname now with
      | (some e, rl') =>
        (sendTo { s with rateLimiter := rl' } cid
          (newErrorMessage "Server" msg.sender e now), none)
      | (none, rl') =>
        let s1 := { s with rateLimiter := rl' }
        match ValidateMessage msg.content with
        | some e => (sendTo s1 cid (newErrorMessage "Server" msg.sender e now), none)
        | none =>
          if msg.recipient = "*" || msg.recipient = "" then
            (broadcastMessage s1 msg "", none)
          else if msg.room ≠ "" then
            match alook s1.rooms msg.room with
            | some room =>
              if !roomIsMember room c.nickname then
                (sendTo s1 cid (newErrorMessage "Server" c.nickname
                  "You are not a member of this room" now), none)
              else
                (broadcastToRoom s1 msg.room msg, none)
            | none =>
              (sendTo s1 cid (newErrorMessage "Server" c.nickname "Room not found" now),
                none)
          else
            match getClient s1 msg.recipient with
            | some (rcid, _) =>
              (sendTo (sendTo s1 rcid msg) cid msg, none)
            | none =>
              (sendTo s1 cid (newErrorMessage "Server" msg.sender
                ("User " ++ msg.recipient ++ " not found") now), none)
    else if msg.type = TypeStatus then
      let s1 := { s with
        sessions := alUpd s.sessions cid (fun cc => { cc with status := msg.status }) }
      let s2 := broadcastUserList s1
      (broadcastMessage s2
        (newBroadcastMessage "Server" (c.nickname ++ " is now " ++ msg.status) now)
        c.nickname, none)
    else if msg.type = TypeRoom then
      (handleRoomMessage s cid c msg now, none)
    else if msg.type = TypeInvite then
      (handleInviteMessage s cid c msg now, none)
    else if msg.type = TypeInviteResp then
      (handleInviteResponse s cid c msg now, none)
    else if msg.type = TypeFile then
      (handleFileTransferInit s cid c msg now, none)
    else if msg.type = TypeFileChunk then
      (handleFileChunk s cid msg, none)
    else
      (s, some ("[VALIDATION] unknown message type: " ++ msg.type))

/-- One delivered frame of `Client.ReadPump`: stamp `Sender` with the
session's nickname and `Timestamp` with now, dispatch, and surface a
handler error as an ERROR frame to the client. -/
def readPumpDeliver (s : ServerState) (cid : Nat) (rawMsg : Message) (now : Nat) :
    ServerState :=
  match alook s.sessions cid with
  | none => s
  | some c =>
    let msg := { rawMsg with sender := c.nickname, timestamp := now }
    let (s1, err) := handleMessage s cid msg now
    match err with
    | some e => sendTo s1 cid (newErrorMessage "Server" c.nickname e now)
    | none => s1

/-- `CleanupManager.cleanupFileTransfers`: notify both endpoints of each
stale transfer, decrement the sender's transfer counter, then delete the
collected ids. -/
def cleanupFileTransfers (s : ServerState) (now : Nat) : ServerState :=
  let stale := s.fileTransfers.filter fun p => now - p.2.startTime > FileTransferTimeout
  let staleIds := stale.map Prod.fst
  let s1 := stale.foldl (fun acc p =>
    let ft := p.2
    let a1 := match getClient acc ft.sender with
      | some (scid, _) => sendTo acc scid (newErrorMessage "Server" ft.sender
          ("File transfer timed out: " ++ ft.filename) now)
      | none => acc
    let a2 := match getClient a1 ft.recipient with
      | some (rcid, _) => sendTo a1 rcid (newErrorMessage "Server" ft.recipient
          ("File transfer timed out: " ++ ft.filename) now)
      | none => a1
    { a2 with rateLimiter := rlRemoveFileTransfer a2.rateLimiter ft.sender }) s
  { s1 with fileTransfers :=
      s1.fileTransfers.filter fun p => !staleIds.contains p.1 }

/-- `CleanupManager.cleanupEmptyRooms`. -/
def cleanupEmptyRooms (s : ServerState) (now : Nat) : ServerState :=
  { s with rooms := s.rooms.filter fun p =>
      !(p.2.members.isEmpty && now - p.2.createdAt > EmptyRoomTimeout) }

/-! ## Drivers and predicates used by the claims -/

/-- Feed a chronological list of send times for one nickname through
`RateLimiter.CanSendMessage`; the booleans record which sends are accepted. -/
def runSends (rl : RateLimiter) (nick : String) (times : List Nat) :
    List Bool × RateLimiter :=
  times.foldl (fun acc t =>
    (acc.1 ++ [(canSendMessage acc.2 nick t).1.isNone],
      (canSendMessage acc.2 nick t).2)) ([], rl)

/-- The filename-rejection rule as amended: empty, longer than 255 bytes,
cleaned path containing a separator or `..`, or a leading dot. -/
def fileNameRejected (f : String) : Prop :=
  blen f = 0 ∨ MaxFileNameLength < blen f ∨ containsDotDot (pathClean f) = true
    ∨ containsSep (pathClean f) = true ∨ startsWithDot f = true

instance (f : String) : Decidable (fileNameRejected f) := by
  unfold fileNameRejected; infer_instance

/-! ## Concrete states used by counterexamples and witnesses -/

/-- A session already registered as "alice". -/
def cAlice : Client := { id := 1, nickname := "alice" }

/-- A second registered session, "bob". -/
def cBob : Client := { id := 2, nickname := "bob" }

/-- "bob" with status INVISIBLE. -/
def cBobInvisible : Client := { id := 2, nickname := "bob", status := StatusInvisible }

/-- A server with the single registered client "alice". -/
def sAliceOnly : ServerState :=
  { clients := [("alice", 1)], sessions := [(1, cAlice)] }

/-- A server with one fresh, not yet registered session. -/
def sFresh : ServerState := { sessions := [(1, { id := 1 })] }

/-- Alice and Bob registered; a room `r1` named "proj" whose only member is
its creator "alice". -/
def sWithRoom : ServerState :=
  { clients := [("alice", 1), ("bob", 2)],
    sessions := [(1, cAlice), (2, cBob)],
    rooms := [("r1",
      { id := "r1", name := "proj", creator := "alice",
        members := ["alice"], createdAt := 0 })] }

/-- Alice registered; an in-flight one-chunk transfer `f1` from "alice" to
"bob", where "bob" is no longer connected. -/
def sTransferGone : ServerState :=
  { clients := [("alice", 1)], sessions := [(1, cAlice)],
    fileTransfers := [("f1",
      { fileID := "f1", filename := "a.bin", filesize := 10,
        sender := "alice", recipient := "bob", totalChunks := 1 })] }

/-- Alice and Bob registered; the same one-chunk transfer `f1`, with
"alice" holding one slot of her concurrent-transfer budget. -/
def sTransferLive : ServerState :=
  { clients := [("alice", 1), ("bob", 2)],
    sessions := [(1, cAlice), (2, cBob)],
    fileTransfers := [("f1",
      { fileID := "f1", filename := "a.bin", filesize := 10,
        sender := "alice", recipient := "bob", totalChunks := 1 })],
    rateLimiter := { transfersPerUser := [("alice", 1)] } }

/-- Alice registered and visible, Bob registered and INVISIBLE. -/
def sOneInvisible : ServerState :=
  { clients := [("alice", 1), ("bob", 2)],
    sessions := [(1, cAlice), (2, cBobInvisible)] }

/-- A registered visible session "carol". -/
def cCarol : Client := { id := 3, nickname := "carol" }

/-- A server with registered "carol" and an unregistered session 9 that
never sent a successful CONNECT. -/
def sHalfOpen : ServerState :=
  { clients := [("carol", 3)],
    sessions := [(3, cCarol), (9, { id := 9 })] }

/-- The chunk message completing transfer `f1`. -/
def mChunk : Message :=
  { type := TypeFileChunk, fileID := "f1", chunkNum := 0, data := [1, 2] }

/-- A registered session "bob" whose rate entry is at the limit. -/
def cRateBob : Client := { id := 5, nickname := "bob" }

/-- A server where "bob" (session 5) has exhausted this second's budget. -/
def sRate : ServerState :=
  { clients := [("bob", 5)], sessions := [(5, cRateBob)],
    rateLimiter := { messageRates := [("bob", { messages := 10, lastReset := 0 })] } }

/-- A broadcast TEXT frame from "bob". -/
def mText : Message := { type := TypeText, sender := "bob", content := "hi" }

/-- The rate-limit rejection reason. -/
def eRate : String := "message rate limit exceeded (10 messages per second)"

/-! ## General lemmas about the embedding -/

@[simp] theorem alook_nil {α β : Type} [DecidableEq α] (k : α) :
    alook ([] : List (α × β)) k = none := rfl

@[simp] theorem alook_cons {α β : Type} [DecidableEq α] (k' : α) (v : β) (t) (k : α) :
    alook ((k', v) :: t) k = if k = k' then some v else alook t k := rfl

theorem alook_alSet_self {α β : Type} [DecidableEq α]
    (l : List (α × β)) (k : α) (v : β) : alook (alSet l k v) k = some v := by
  induction l with
  | nil => simp [alSet]
  | cons p t ih =>
    obtain ⟨k', v'⟩ := p
    by_cases h : k = k' <;> simp [alSet, h, ih]

theorem alook_alSet_ne {α β : Type} [DecidableEq α]
    (l : List (α × β)) (k k₀ : α) (v : β) (h : k₀ ≠ k) :
    alook (alSet l k v) k₀ = alook l k₀ := by
  induction l with
  | nil => simp [alSet, h]
  | cons p t ih =>
    obtain ⟨k', v'⟩ := p
    by_cases hk : k = k'
    · subst hk; simp [alSet, h]
    · simp only [alSet, if_neg hk, alook_cons, ih]

theorem alook_alErase_self {α β : Type} [DecidableEq α]
    (l : List (α × β)) (k : α) : alook (alErase l k) k = none := by
  induction l with
  | nil => simp [alErase]
  | cons p t ih =>
    obtain ⟨k', v'⟩ := p
    by_cases h : k' = k
    · simpa [alErase, h] using ih
    · simp [alErase, h, ih, Ne.symm h]

theorem alook_alErase_ne {α β : Type} [DecidableEq α]
    (l : List (α × β)) (k k₀ : α) (h : k₀ ≠ k) :
    alook (alErase l k) k₀ = alook l k₀ := by
  induction l with
  | nil => simp [alErase]
  | cons p t ih =>
    obtain ⟨k', v'⟩ := p
    by_cases hk : k' = k
    · subst hk; simp [alErase, if_pos rfl, ih, if_neg h]
    · simp [alErase, hk, ih]

theorem alook_alUpd_self {α β : Type} [DecidableEq α]
    (l : List (α × β)) (k : α) (f : β → β) :
    alook (alUpd l k f) k = (alook l k).map f := by
  induction l with
  | nil => simp [alUpd]
  | cons p t ih =>
    obtain ⟨k', v'⟩ := p
    by_cases h : k' = k
    · subst h; simp [alUpd, ih]
    · simp [alUpd, h, Ne.symm h, ih]

theorem alook_alUpd_ne {α β : Type} [DecidableEq α]
    (l : List (α × β)) (k k₀ : α) (f : β → β) (h : k₀ ≠ k) :
    alook (alUpd l k f) k₀ = alook l k₀ := by
  induction l with
  | nil => simp [alUpd]
  | cons p t ih =>
    obtain ⟨k', v'⟩ := p
    by_cases hk : k' = k
    · subst hk; simp [alUpd, if_neg h, ih, if_pos rfl]
    · by_cases hk0 : k₀ = k' <;> simp [alUpd, hk, hk0, ih]

theorem alook_none_not_mem {α β : Type} [DecidableEq α]
    {l : List (α × β)} {k : α} (h : alook l k = none) : k ∉ l.map Prod.fst := by
  induction l with
  | nil => simp
  | cons p t ih =>
    obtain ⟨k', v'⟩ := p
    by_cases hk : k = k' <;> simp_all

theorem alSet_absent {α β : Type} [DecidableEq α]
    {l : List (α × β)} {k : α} (v : β) (h : alook l k = none) :
    alSet l k v = l ++ [(k, v)] := by
  induction l with
  | nil => simp [alSet]
  | cons p t ih =>
    obtain ⟨k', v'⟩ := p
    by_cases hk : k = k' <;> simp_all [alSet]

@[simp] theorem clientSend_nickname (c : Client) (m : Message) :
    (clientSend c m).nickname = c.nickname := by
  unfold clientSend; split <;> rfl

@[simp] theorem clientSend_status (c : Client) (m : Message) :
    (clientSend c m).status = c.status := by
  unfold clientSend; split <;> rfl

@[simp] theorem clientSend_rooms (c : Client) (m : Message) :
    (clientSend c m).rooms = c.rooms := by
  unfold clientSend; split <;> rfl

@[simp] theorem sendTo_clients (s : ServerState) (cid : Nat) (m : Message) :
    (sendTo s cid m).clients = s.clients := rfl

@[simp] theorem sendTo_rooms (s : ServerState) (cid : Nat) (m : Message) :
    (sendTo s cid m).rooms = s.rooms := rfl

@[simp] theorem sendTo_fileTransfers (s : ServerState) (cid : Nat) (m : Message) :
    (sendTo s cid m).fileTransfers = s.fileTransfers := rfl

@[simp] theorem sendTo_rateLimiter (s : ServerState) (cid : Nat) (m : Message) :
    (sendTo s cid m).rateLimiter = s.rateLimiter := rfl

@[simp] theorem sendTo_idCounter (s : ServerState) (cid : Nat) (m : Message) :
    (sendTo s cid m).idCounter = s.idCounter := rfl

theorem alook_sendTo_self (s : ServerState) (cid : Nat) (m : Message) :
    alook (sendTo s cid m).sessions cid
      = (alook s.sessions cid).map (fun c => clientSend c m) :=
  alook_alUpd_self _ _ _

theorem alook_sendTo_ne (s : ServerState) (cid cid' : Nat) (m : Message)
    (h : cid' ≠ cid) :
    alook (sendTo s cid m).sessions cid' = alook s.sessions cid' :=
  alook_alUpd_ne _ _ _ _ h

theorem alook_sendTo_map_rooms (s : ServerState) (cid' : Nat) (m : Message)
    (cid : Nat) :
    (alook (sendTo s cid' m).sessions cid).map Client.rooms
      = (alook s.sessions cid).map Client.rooms := by
  by_cases h : cid = cid'
  · subst h
    rw [alook_sendTo_self]
    cases alook s.sessions cid <;> simp
  · rw [alook_sendTo_ne _ _ _ _ h]

/-- A fold whose every step preserves a projection preserves it overall. -/
theorem foldl_preserve {α β : Type} (f : ServerState → α → ServerState)
    (g : ServerState → β) (hf : ∀ acc x, g (f acc x) = g acc) :
    ∀ (l : List α) (s : ServerState), g (l.foldl f s) = g s
  | [], _ => rfl
  | x :: t, s => by
    rw [List.foldl_cons, foldl_preserve f g hf t, hf]

theorem broadcastStep_clients (m : Message) (e : String) (acc : ServerState)
    (p : String × Nat) : (broadcastStep m e acc p).clients = acc.clients := by
  unfold broadcastStep
  cases alook acc.sessions p.2 <;> simp only []
  split <;> try rfl
  split <;> rfl

theorem broadcastStep_rooms (m : Message) (e : String) (acc : ServerState)
    (p : String × Nat) : (broadcastStep m e acc p).rooms = acc.rooms := by
  unfold broadcastStep
  cases alook acc.sessions p.2 <;> simp only []
  split <;> try rfl
  split <;> rfl

theorem broadcastStep_fileTransfers (m : Message) (e : String) (acc : ServerState)
    (p : String × Nat) :
    (broadcastStep m e acc p).fileTransfers = acc.fileTransfers := by
  unfold broadcastStep
  cases alook acc.sessions p.2 <;> simp only []
  split <;> try rfl
  split <;> rfl

theorem broadcastStep_rateLimiter (m : Message) (e : String) (acc : ServerState)
    (p : String × Nat) :
    (broadcastStep m e acc p).rateLimiter = acc.rateLimiter := by
  unfold broadcastStep
  cases alook acc.sessions p.2 <;> simp only []
  split <;> try rfl
  split <;> rfl

@[simp] theorem broadcastOver_clients (l : List (String × Nat)) (s : ServerState)
    (m : Message) (e : String) : (broadcastOver l s m e).clients = s.clients :=
  foldl_preserve _ _ (fun acc p => broadcastStep_clients m e acc p) l s

@[simp] theorem broadcastOver_rooms (l : List (String × Nat)) (s : ServerState)
    (m : Message) (e : String) : (broadcastOver l s m e).rooms = s.rooms :=
  foldl_preserve _ _ (fun acc p => broadcastStep_rooms m e acc p) l s

@[simp] theorem broadcastOver_fileTransfers (l : List (String × Nat))
    (s : ServerState) (m : Message) (e : String) :
    (broadcastOver l s m e).fileTransfers = s.fileTransfers :=
  foldl_preserve _ _ (fun acc p => broadcastStep_fileTransfers m e acc p) l s

@[simp] theorem broadcastOver_rateLimiter (l : List (String × Nat))
    (s : ServerState) (m : Message) (e : String) :
    (broadcastOver l s m e).rateLimiter = s.rateLimiter :=
  foldl_preserve _ _ (fun acc p => broadcastStep_rateLimiter m e acc p) l s

theorem broadcastStep_lookup_ne (m : Message) (e : String) (acc : ServerState)
    (p : String × Nat) (cid : Nat) (h : p.2 ≠ cid) :
    alook (broadcastStep m e acc p).sessions cid = alook acc.sessions cid := by
  unfold broadcastStep
  cases alook acc.sessions p.2 <;> simp only []
  · split
    · rfl
    · split
      · rfl
      · exact alook_sendTo_ne _ _ _ _ (Ne.symm h)

theorem broadcastOver_lookup_nm (l : List (String × Nat)) (s : ServerState)
    (m : Message) (e : String) (cid : Nat) (h : ∀ p ∈ l, p.2 ≠ cid) :
    alook (broadcastOver l s m e).sessions cid = alook s.sessions cid := by
  induction l generalizing s with
  | nil => rfl
  | cons p t ih =>
    rw [broadcastOver, List.foldl_cons]
    rw [show List.foldl (broadcastStep m e) (broadcastStep m e s p) t
      = broadcastOver t (broadcastStep m e s p) m e from rfl]
    rw [ih _ fun q hq => h q (List.mem_cons_of_mem _ hq)]
    exact broadcastStep_lookup_ne m e s p cid (h p (List.mem_cons_self _ _))

theorem validNickname_ne_empty {n : String} (h : ValidateNickname n = none) :
    n ≠ "" := by
  intro he
  subst he
  revert h
  decide

theorem alook_append_left {α β : Type} [DecidableEq α]
    {l : List (α × β)} {k : α} {v : β} (l2 : List (α × β))
    (h : alook l k = some v) : alook (l ++ l2) k = some v := by
  induction l with
  | nil => simp at h
  | cons p t ih =>
    obtain ⟨k', v'⟩ := p
    by_cases hk : k = k' <;> simp_all

theorem alook_append_right {α β : Type} [DecidableEq α]
    {l : List (α × β)} {k : α} (l2 : List (α × β))
    (h : alook l k = none) : alook (l ++ l2) k = alook l2 k := by
  induction l with
  | nil => simp
  | cons p t ih =>
    obtain ⟨k', v'⟩ := p
    by_cases hk : k = k' <;> simp_all

theorem getClient_some {s : ServerState} {n : String} {cid : Nat} {c : Client}
    (h : getClient s n = some (cid, c)) :
    alook s.clients n = some cid ∧ alook s.sessions cid = some c := by
  unfold getClient at h
  cases hc : alook s.clients n with
  | none => rw [hc] at h; simp at h
  | some cid' =>
    rw [hc] at h
    simp only [Option.some_bind] at h
    cases hs : alook s.sessions cid' with
    | none => rw [hs] at h; simp at h
    | some c' =>
      rw [hs] at h
      simp at h
      rcases h with ⟨rfl, rfl⟩
      exact ⟨rfl, hs⟩

@[simp] theorem broadcastMessage_clients (s : ServerState) (m : Message) (e : String) :
    (broadcastMessage s m e).clients = s.clients := broadcastOver_clients _ _ _ _

@[simp] theorem broadcastMessage_rooms (s : ServerState) (m : Message) (e : String) :
    (broadcastMessage s m e).rooms = s.rooms := broadcastOver_rooms _ _ _ _

@[simp] theorem broadcastMessage_fileTransfers (s : ServerState) (m : Message)
    (e : String) : (broadcastMessage s m e).fileTransfers = s.fileTransfers :=
  broadcastOver_fileTransfers _ _ _ _

@[simp] theorem broadcastMessage_rateLimiter (s : ServerState) (m : Message)
    (e : String) : (broadcastMessage s m e).rateLimiter = s.rateLimiter :=
  broadcastOver_rateLimiter _ _ _ _

@[simp] theorem broadcastUserList_clients (s : ServerState) :
    (broadcastUserList s).clients = s.clients := broadcastOver_clients _ _ _ _

@[simp] theorem broadcastUserList_rooms (s : ServerState) :
    (broadcastUserList s).rooms = s.rooms := broadcastOver_rooms _ _ _ _

@[simp] theorem broadcastUserList_fileTransfers (s : ServerState) :
    (broadcastUserList s).fileTransfers = s.fileTransfers :=
  broadcastOver_fileTransfers _ _ _ _

@[simp] theorem broadcastUserList_rateLimiter (s : ServerState) :
    (broadcastUserList s).rateLimiter = s.rateLimiter :=
  broadcastOver_rateLimiter _ _ _ _

theorem broadcastToRoom_rooms (s : ServerState) (rid : String) (m : Message) :
    (broadcastToRoom s rid m).rooms = s.rooms := by
  unfold broadcastToRoom
  cases alook s.rooms rid with
  | none => rfl
  | some room =>
    refine foldl_preserve _ ServerState.rooms ?_ _ _
    intro acc x
    cases hg : getClient acc x with
    | none => simp only [hg]
    | some p =>
      obtain ⟨cid1, c1⟩ := p
      simp only [hg]
      split
      · rfl
      · exact sendTo_rooms _ _ _

theorem broadcastToRoom_clients (s : ServerState) (rid : String) (m : Message) :
    (broadcastToRoom s rid m).clients = s.clients := by
  unfold broadcastToRoom
  cases alook s.rooms rid with
  | none => rfl
  | some room =>
    refine foldl_preserve _ ServerState.clients ?_ _ _
    intro acc x
    cases hg : getClient acc x with
    | none => simp only [hg]
    | some p =>
      obtain ⟨cid1, c1⟩ := p
      simp only [hg]
      split
      · rfl
      · exact sendTo_clients _ _ _

theorem broadcastToRoom_fileTransfers (s : ServerState) (rid : String) (m : Message) :
    (broadcastToRoom s rid m).fileTransfers = s.fileTransfers := by
  unfold broadcastToRoom
  cases alook s.rooms rid with
  | none => rfl
  | some room =>
    refine foldl_preserve _ ServerState.fileTransfers ?_ _ _
    intro acc x
    cases hg : getClient acc x with
    | none => simp only [hg]
    | some p =>
      obtain ⟨cid1, c1⟩ := p
      simp only [hg]
      split
      · rfl
      · exact sendTo_fileTransfers _ _ _

theorem broadcastToRoom_rateLimiter (s : ServerState) (rid : String) (m : Message) :
    (broadcastToRoom s rid m).rateLimiter = s.rateLimiter := by
  unfold broadcastToRoom
  cases alook s.rooms rid with
  | none => rfl
  | some room =>
    refine foldl_preserve _ ServerState.rateLimiter ?_ _ _
    intro acc x
    cases hg : getClient acc x with
    | none => simp only [hg]
    | some p =>
      obtain ⟨cid1, c1⟩ := p
      simp only [hg]
      split
      · rfl
      · exact sendTo_rateLimiter _ _ _

theorem broadcastToRoom_map_rooms (s : ServerState) (rid : String) (m : Message)
    (cid : Nat) :
    (alook (broadcastToRoom s rid m).sessions cid).map Client.rooms
      = (alook s.sessions cid).map Client.rooms := by
  unfold broadcastToRoom
  cases alook s.rooms rid with
  | none => rfl
  | some room =>
    refine foldl_preserve _ (fun st => (alook st.sessions cid).map Client.rooms) ?_ _ _
    intro acc x
    cases hg : getClient acc x with
    | none => simp only [hg]
    | some p =>
      obtain ⟨cid1, c1⟩ := p
      simp only [hg]
      split
      · rfl
      · exact alook_sendTo_map_rooms _ _ _ _

/-- Go's `RemoveConnection` on the total counter is truncated decrement. -/
theorem removeConnection_total (rl : RateLimiter) (a : Addr) :
    (removeConnection rl a).totalConnections = rl.totalConnections - 1 := by
  unfold removeConnection
  dsimp only
  split_ifs <;> (try simp) <;> omega

/-- Delivery through the `Range` of `BroadcastMessage`: a registered entry
whose session is neither the excluded nickname nor a skipped invisible
recipient gets the message enqueued exactly once. -/
theorem broadcastOver_deliver (l1 l2 : List (String × Nat)) (n : String)
    (cid : Nat) (s : ServerState) (m : Message) (e : String) (c : Client)
    (h1 : ∀ p ∈ l1, p.2 ≠ cid) (h2 : ∀ p ∈ l2, p.2 ≠ cid)
    (hsess : alook s.sessions cid = some c)
    (hne : c.nickname ≠ e)
    (hvis : ¬(c.status = StatusInvisible ∧ m.sender ≠ c.nickname)) :
    alook (broadcastOver (l1 ++ (n, cid) :: l2) s m e).sessions cid
      = some (clientSend c m) := by
  unfold broadcastOver
  rw [List.foldl_append, List.foldl_cons]
  have hA : alook (broadcastOver l1 s m e).sessions cid = some c := by
    rw [broadcastOver_lookup_nm l1 s m e cid h1, hsess]
  have hcond : ¬ ((decide (c.status = StatusInvisible)
      && decide (m.sender ≠ c.nickname)) = true) := by
    simp only [Bool.and_eq_true, decide_eq_true_eq, not_and]
    intro hinv hsender
    exact absurd ⟨hinv, hsender⟩ hvis
  have hstep : broadcastStep m e (broadcastOver l1 s m e) (n, cid)
      = sendTo (broadcastOver l1 s m e) cid m := by
    unfold broadcastStep
    rw [hA]
    dsimp only
    rw [if_neg hne, if_neg hcond]
  rw [show List.foldl (broadcastStep m e)
      (broadcastStep m e (List.foldl (broadcastStep m e) s l1) (n, cid)) l2
    = broadcastOver l2 (broadcastStep m e (broadcastOver l1 s m e) (n, cid)) m e
    from rfl]
  rw [hstep, broadcastOver_lookup_nm l2 _ m e cid h2, alook_sendTo_self, hA]
  rfl

/-- A try-send below capacity appends to the queue. -/
theorem clientSend_append (c : Client) (m : Message) (h : c.sendChan.length < 256) :
    clientSend c m = { c with sendChan := c.sendChan ++ [m] } := by
  unfold clientSend
  rw [if_pos h]

@[simp] theorem rlRemoveUser_totalConnections (rl : RateLimiter) (nick : String) :
    (rlRemoveUser rl nick).totalConnections = rl.totalConnections := rfl

/-- Skipping in the `Range` of `BroadcastMessage`: the excluded nickname,
and invisible recipients other than the sender, receive nothing. -/
theorem broadcastOver_skip (l1 l2 : List (String × Nat)) (n : String)
    (cid : Nat) (s : ServerState) (m : Message) (e : String) (c : Client)
    (h1 : ∀ p ∈ l1, p.2 ≠ cid) (h2 : ∀ p ∈ l2, p.2 ≠ cid)
    (hsess : alook s.sessions cid = some c)
    (hskip : c.nickname = e ∨ (c.status = StatusInvisible ∧ m.sender ≠ c.nickname)) :
    alook (broadcastOver (l1 ++ (n, cid) :: l2) s m e).sessions cid = some c := by
  unfold broadcastOver
  rw [List.foldl_append, List.foldl_cons]
  have hA : alook (broadcastOver l1 s m e).sessions cid = some c := by
    rw [broadcastOver_lookup_nm l1 s m e cid h1, hsess]
  have hstep : broadcastStep m e (broadcastOver l1 s m e) (n, cid)
      = broadcastOver l1 s m e := by
    unfold broadcastStep
    rw [hA]
    dsimp only
    by_cases hex : c.nickname = e
    · rw [if_pos hex]
    · have hcondT : (decide (c.status = StatusInvisible)
          && decide (m.sender ≠ c.nickname)) = true := by
        rcases hskip with h | ⟨hinv, hsender⟩
        · exact absurd h hex
        · simp only [Bool.and_eq_true, decide_eq_true_eq]
          exact ⟨hinv, hsender⟩
      rw [if_neg hex, if_pos hcondT]
  rw [show List.foldl (broadcastStep m e)
      (broadcastStep m e (List.foldl (broadcastStep m e) s l1) (n, cid)) l2
    = broadcastOver l2 (broadcastStep m e (broadcastOver l1 s m e) (n, cid)) m e
    from rfl]
  rw [hstep, broadcastOver_lookup_nm l2 _ m e cid h2, hA]

/-- `runSends` with a non-empty accumulator just prepends it. -/
theorem runSends_shift (nick : String) :
    ∀ (ts : List Nat) (rl : RateLimiter) (acc : List Bool),
    (ts.foldl (fun a t =>
        (a.1 ++ [(canSendMessage a.2 nick t).1.isNone],
          (canSendMessage a.2 nick t).2)) (acc, rl)).1
      = acc ++ (ts.foldl (fun a t =>
        (a.1 ++ [(canSendMessage a.2 nick t).1.isNone],
          (canSendMessage a.2 nick t).2)) ([], rl)).1
  | [], rl, acc => by simp
  | t :: ts, rl, acc => by
    simp only [List.foldl_cons, List.nil_append]
    rw [runSends_shift nick ts ((canSendMessage rl nick t).2)
        (acc ++ [(canSendMessage rl nick t).1.isNone]),
      runSends_shift nick ts ((canSendMessage rl nick t).2)
        [(canSendMessage rl nick t).1.isNone]]
    simp

theorem runSends_cons (nick : String) (t : Nat) (ts : List Nat) (rl : RateLimiter) :
    (runSends rl nick (t :: ts)).1
      = (canSendMessage rl nick t).1.isNone
          :: (runSends (canSendMessage rl nick t).2 nick ts).1 := by
  unfold runSends
  simp only [List.foldl_cons, List.nil_append]
  rw [runSends_shift nick ts ((canSendMessage rl nick t).2)
    [(canSendMessage rl nick t).1.isNone]]
  simp

/-- `CanSendMessage` inside one lazy-reset window: reject at the limit,
otherwise advance the counter; either way the entry is stored back. -/
theorem canSendMessage_spec (rl : RateLimiter) (nick : String) (now r m : Nat)
    (hentry : alook rl.messageRates nick = some { messages := m, lastReset := r })
    (hwin : now - r < OneSecond) :
    canSendMessage rl nick now
      = if m ≥ MessagesPerSecond
        then (some ("message rate limit exceeded (" ++ toString MessagesPerSecond
            ++ " messages per second)"),
          { rl with messageRates := alSet rl.messageRates nick { messages := m, lastReset := r } })
        else (none,
          { rl with messageRates := alSet rl.messageRates nick { messages := m + 1, lastReset := r } }) := by
  unfold canSendMessage
  rw [hentry]
  simp only [Option.getD_some]
  rw [if_neg (show ¬ now - r ≥ OneSecond from by omega)]

/-- As long as a nickname's rate entry sticks to one lazy-reset window (all
attempt times less than one second past `lastReset`), the counter only
climbs and at most `MessagesPerSecond - m` further sends are accepted. -/
theorem runSends_window_count (nick : String) (times : List Nat)
    (rl : RateLimiter) (r m : Nat)
    (hentry : alook rl.messageRates nick = some { messages := m, lastReset := r })
    (htimes : ∀ t ∈ times, t - r < OneSecond) :
    (runSends rl nick times).1.count true ≤ MessagesPerSecond - m := by
  induction times generalizing rl m with
  | nil => simp [runSends]
  | cons t ts ih =>
    have ht : t - r < OneSecond := htimes t (List.mem_cons_self _ _)
    have hts : ∀ u ∈ ts, u - r < OneSecond :=
      fun u hu => htimes u (List.mem_cons_of_mem _ hu)
    rw [runSends_cons, canSendMessage_spec rl nick t r m hentry ht]
    by_cases hm : m ≥ MessagesPerSecond
    · rw [if_pos hm]
      have h2 := ih ({ rl with messageRates := alSet rl.messageRates nick { messages := m, lastReset := r } }) m
        (by simp [alook_alSet_self]) hts
      simp only [List.count_cons]
      simpa using h2
    · rw [if_neg hm]
      have h2 := ih ({ rl with messageRates := alSet rl.messageRates nick { messages := m + 1, lastReset := r } }) (m + 1)
        (by simp [alook_alSet_self]) hts
      have hms : MessagesPerSecond - (m + 1) + 1 ≤ MessagesPerSecond - m := by
        unfold MessagesPerSecond at *
        omega
      simp only [List.count_cons]
      simp
      omega

/-! ## The claims -/

/-- C8, counterexample.  The claim says the filename validator accepts
`"..evil"`; the code cleans the path and rejects any cleaned name that
contains `".."`, so `"..evil"` is rejected.  The claim's general rule also
rejects every name containing a `/`, yet the code accepts `"a/"` (its
cleaned form `"a"` has no separator). -/
theorem C8_counterexample :
    (ValidateFileName "..evil").isSome = true ∧ ValidateFileName "a/" = none := by
  decide

/-- C8, amended: the validator rejects `"..evil"` (and still rejects
`"a/b"` and `".hidden"`, accepts `"ok.txt"`); in general it rejects exactly
the filenames that are empty, longer than 255 bytes, whose *cleaned* path
contains a `/`, a `\x5c` or `".."`, or that start with `.`. -/
theorem C8_filename_validator :
    ValidateFileName "..evil" ≠ none ∧ ValidateFileName "ok.txt" = none
      ∧ ValidateFileName "a/b" ≠ none ∧ ValidateFileName ".hidden" ≠ none
      ∧ ∀ f : String, ValidateFileName f = none ↔ ¬ fileNameRejected f := by
  refine ⟨by decide, by decide, by decide, by decide, ?_⟩
  intro f
  unfold ValidateFileName fileNameRejected
  by_cases h1 : blen f = 0
  · simp [h1]
  · by_cases h2 : blen f > MaxFileNameLength
    · simp [h1, h2, Nat.lt_of_lt_of_le]
    · by_cases h3 : (containsDotDot (pathClean f) || containsSep (pathClean f)) = true
      · rw [Bool.or_eq_true] at h3
        rcases h3 with h3 | h3 <;>
          simp [h1, h2, h3]
      · rw [Bool.or_eq_true, not_or] at h3
        obtain ⟨h3a, h3b⟩ := h3
        by_cases h4 : startsWithDot f = true
        · simp [h1, h2, h3a, h3b, h4]
        · simp [h1, h2, h3a, h3b, h4]


/-- C3, counterexample.  The lazy-reset counter does not bound a rolling
1-second window: with a fresh limiter, one send at t=0 then nine at t=999
fill the first window, and at t=1000 (one second past `lastReset`) the
counter resets, so ten more sends at t=1000 are accepted.  The nineteen
sends at times 999..1000 all lie inside a single 1-second window, all are
accepted, and none receives an ERROR. -/
theorem C3_counterexample :
    (runSends {} "alice" ([0] ++ List.replicate 9 999 ++ List.replicate 10 1000)).1
      = List.replicate 20 true
    ∧ (∀ t ∈ List.replicate 9 (999 : Nat) ++ List.replicate 10 1000,
        999 ≤ t ∧ t < 999 + OneSecond)
    ∧ 10 < (List.replicate 9 (999 : Nat) ++ List.replicate 10 1000).length := by
  decide

/-- C3, amended: per *lazy-reset window* (all sends less than one second
after the entry's `lastReset`), at most 10 TEXT messages of a nickname are
accepted; a TEXT message whose rate check fails is answered with a single
ERROR message enqueued to the sender and is not delivered to any other
session. -/
theorem C3_rate_limit (nick : String) (times : List Nat) (rl : RateLimiter)
    (r : Nat) (s : ServerState) (cid : Nat) (c : Client) (msg : Message)
    (now : Nat) (e : String)
    (hentry : alook rl.messageRates nick = some { messages := 0, lastReset := r })
    (htimes : ∀ t ∈ times, t - r < OneSecond)
    (hsess : alook s.sessions cid = some c)
    (htype : msg.type = TypeText)
    (hrate : (canSendMessage s.rateLimiter c.nickname now).1 = some e) :
    (runSends rl nick times).1.count true ≤ MessagesPerSecond
    ∧ alook (handleMessage s cid msg now).1.sessions cid
        = some (clientSend c (newErrorMessage "Server" msg.sender e now))
    ∧ ∀ cid', cid' ≠ cid →
        alook (handleMessage s cid msg now).1.sessions cid' = alook s.sessions cid' := by
  have hred : (handleMessage s cid msg now).1
      = sendTo { s with rateLimiter := (canSendMessage s.rateLimiter c.nickname now).2 }
          cid (newErrorMessage "Server" msg.sender e now) := by
    unfold handleMessage
    rw [hsess]
    simp only [htype]
    rw [if_neg (show ¬ (TypeText = TypeConnect) from by decide)]
    simp only [if_true]
    rcases hcs : canSendMessage s.rateLimiter c.nickname now with ⟨err, rl2⟩
    rw [hcs] at hrate
    simp only at hrate
    subst hrate
    simp only
  refine ⟨?_, ?_, ?_⟩
  · simpa using runSends_window_count nick times rl r 0 hentry htimes
  · rw [hred, alook_sendTo_self]
    show (alook s.sessions cid).map _ = _
    rw [hsess]
    rfl
  · intro cid' hne
    rw [hred, alook_sendTo_ne _ _ _ _ hne]

/-- Successful CONNECT, reduced to its effect chain: register (heap
nickname write + registry insert), user-list broadcast, welcome, announce,
then the dispatcher's own "Connected successfully" reply. -/
theorem handleMessage_connect_success (s : ServerState) (cid : Nat) (c : Client)
    (n w : String) (now : Nat)
    (hsess : alook s.sessions cid = some c)
    (hval : ValidateNickname n = none)
    (hfree : alook s.clients n = none) :
    (handleMessage s cid { type := TypeConnect, sender := w, content := n } now).1
      = sendTo (broadcastMessage
          (sendTo (broadcastUserList
            { s with
              sessions := alUpd s.sessions cid (fun cc => { cc with nickname := n }),
              clients := alSet s.clients n cid }) cid
            (newTextMessage "Server" n ("Welcome to the chat, " ++ n ++ "!") now))
          (newBroadcastMessage "Server" (n ++ " has joined the chat") now) n) cid
        (newTextMessage "Server" w "Connected successfully" now) := by
  have hreg : registerClient s cid n now
      = (broadcastMessage
          (sendTo (broadcastUserList
            { s with
              sessions := alUpd s.sessions cid (fun cc => { cc with nickname := n }),
              clients := alSet s.clients n cid }) cid
            (newTextMessage "Server" n ("Welcome to the chat, " ++ n ++ "!") now))
          (newBroadcastMessage "Server" (n ++ " has joined the chat") now) n,
        true, none) := by
    unfold registerClient
    rw [hval]
    dsimp only
    rw [hfree]
    simp only [Option.isSome_none, Bool.false_eq_true, if_false]
  unfold handleMessage
  rw [hsess]
  dsimp only
  rw [if_pos rfl, hreg]
  rfl

/-- C1, counterexample.  With "alice" registered as session 1, a further
CONNECT with the fresh nickname "bob" leaves the very same session stored
under both nicknames: the old registry entry is never removed. -/
theorem C1_counterexample :
    alook ((handleMessage sAliceOnly 1
        { type := TypeConnect, sender := "alice", content := "bob" } 5).1).clients
      "alice" = some 1
    ∧ alook ((handleMessage sAliceOnly 1
        { type := TypeConnect, sender := "alice", content := "bob" } 5).1).clients
      "bob" = some 1
    ∧ ("alice" : String) ≠ "bob" := by
  decide

/-- C1, amended: every nickname key still maps to exactly one session (the
registry stays a map with distinct keys), but a session that is already
registered under `a` and processes a further CONNECT with a fresh valid
nickname `b` ends up stored under both `a` and `b`. -/
theorem C1_second_connect (s : ServerState) (cid : Nat) (c : Client)
    (a b : String) (now : Nat)
    (ha : alook s.clients a = some cid)
    (hc : alook s.sessions cid = some c)
    (hval : ValidateNickname b = none)
    (hb : alook s.clients b = none) :
    (handleMessage s cid { type := TypeConnect, sender := a, content := b } now).1.clients
      = s.clients ++ [(b, cid)]
    ∧ alook (handleMessage s cid
        { type := TypeConnect, sender := a, content := b } now).1.clients a = some cid
    ∧ alook (handleMessage s cid
        { type := TypeConnect, sender := a, content := b } now).1.clients b = some cid
    ∧ ((s.clients.map Prod.fst).Nodup →
        ((handleMessage s cid { type := TypeConnect, sender := a, content := b }
          now).1.clients.map Prod.fst).Nodup) := by
  have hclients : (handleMessage s cid
      { type := TypeConnect, sender := a, content := b } now).1.clients
      = s.clients ++ [(b, cid)] := by
    rw [handleMessage_connect_success s cid c b a now hc hval hb]
    simp only [sendTo_clients, broadcastMessage_clients, broadcastUserList_clients]
    exact alSet_absent cid hb
  refine ⟨hclients, ?_, ?_, ?_⟩
  · rw [hclients]
    exact alook_append_left _ ha
  · rw [hclients, alook_append_right _ hb]
    simp
  · intro hnd
    rw [hclients, List.map_append, List.nodup_append]
    refine ⟨hnd, by simp, ?_⟩
    intro x hx hxb
    simp at hxb
    subst hxb
    exact alook_none_not_mem hb hx

/-- C1 witness: the amended theorem at the concrete two-CONNECT state. -/
theorem C1_second_connect_witness :
    alook (handleMessage sAliceOnly 1
        { type := TypeConnect, sender := "alice", content := "bob" } 5).1.clients
      "bob" = some 1 :=
  (C1_second_connect sAliceOnly 1 cAlice "alice" "bob" 5
    (by decide) (by decide) (by decide) (by decide)).2.2.1

/-- C4, counterexample.  In `sWithRoom`, "bob" is not a member of room
`r1`; processing his bare ROOM/JOIN is anything but a silent no-op: he is
added to the member set and his room set, and messages are enqueued. -/
theorem C4_counterexample :
    (alook (handleMessage sWithRoom 2
        { type := TypeRoom, action := RoomJoin, room := "r1", sender := "bob" }
        9).1.rooms "r1").map Room.members = some ["alice", "bob"]
    ∧ (alook (handleMessage sWithRoom 2
        { type := TypeRoom, action := RoomJoin, room := "r1", sender := "bob" }
        9).1.sessions 2).map Client.rooms = some ["r1"]
    ∧ (handleMessage sWithRoom 2
        { type := TypeRoom, action := RoomJoin, room := "r1", sender := "bob" }
        9).1 ≠ sWithRoom := by
  decide

/-- C4, amended: a bare ROOM/JOIN naming an existing room is a silent
no-op exactly when the sender is *already* a member; a non-member sender is
instead added to the room's member set and to their own room set. -/
theorem C4_join (s : ServerState) (cid : Nat) (c : Client) (msg : Message)
    (room : Room) (now : Nat)
    (hsess : alook s.sessions cid = some c)
    (htype : msg.type = TypeRoom) (hact : msg.action = RoomJoin)
    (hroom : alook s.rooms msg.room = some room) :
    (roomIsMember room c.nickname = true → (handleMessage s cid msg now).1 = s)
    ∧ (roomIsMember room c.nickname = false →
        alook (handleMessage s cid msg now).1.rooms msg.room
          = some (roomAddMember room c.nickname)
        ∧ (alook (handleMessage s cid msg now).1.sessions cid).map Client.rooms
          = some (setAdd c.rooms room.id)) := by
  have hdis : (handleMessage s cid msg now).1 = handleRoomMessage s cid c msg now := by
    unfold handleMessage
    rw [hsess]
    dsimp only
    rw [htype]
    rw [if_neg (by decide), if_neg (by decide), if_neg (by decide), if_pos rfl]
  rw [hdis]
  unfold handleRoomMessage
  rw [hact]
  rw [if_neg (by decide), if_pos rfl, hroom]
  dsimp only
  constructor
  · intro hmem
    rw [hmem]
    simp only [Bool.not_true, Bool.false_eq_true, if_false]
  · intro hmem
    rw [hmem]
    simp only [Bool.not_false, if_true]
    constructor
    · simp only [sendTo_rooms, broadcastToRoom_rooms]
      show alook (alUpd s.rooms msg.room fun r => roomAddMember r c.nickname)
        msg.room = _
      rw [alook_alUpd_self, hroom]
      rfl
    · rw [alook_sendTo_map_rooms, broadcastToRoom_map_rooms]
      dsimp only
      rw [alook_alUpd_self, hsess]
      rfl

/-- C4 witness: "alice" is already a member of `r1`, so her bare JOIN is a
silent no-op (the state is returned unchanged). -/
theorem C4_join_witness :
    (handleMessage sWithRoom 1
      { type := TypeRoom, action := RoomJoin, room := "r1", sender := "alice" }
      9).1 = sWithRoom :=
  (C4_join sWithRoom 1 cAlice
    { type := TypeRoom, action := RoomJoin, room := "r1", sender := "alice" }
    { id := "r1", name := "proj", creator := "alice", members := ["alice"],
      createdAt := 0 } 9
    (by decide) rfl rfl (by decide)).1 (by decide)

/-- C7, counterexample.  `BroadcastUserList` hands its message to
`BroadcastMessage`, whose `Range` skips every invisible client whose
nickname differs from the message's (empty) `Sender`; so the INVISIBLE
session "bob" receives nothing, while the claim says the USER_LIST is
delivered to every registered session including invisible ones. -/
theorem C7_counterexample :
    (alook (broadcastUserList sOneInvisible).sessions 2).map Client.sendChan
      = some []
    ∧ (alook (broadcastUserList sOneInvisible).sessions 1).map Client.sendChan
      = some [{ type := TypeUserList, users := ["alice:ACTIVE"] }] := by
  decide

/-- C7, amended: the user-list broadcast is a USER_LIST message whose
`Users` field is built from every registered non-invisible client; it is
enqueued to every registered *non-invisible* session, while sessions whose
own status is INVISIBLE are skipped and receive nothing. -/
theorem C7_user_list (s : ServerState) (l1 l2 : List (String × Nat)) (n : String)
    (cid : Nat) (c : Client)
    (hclients : s.clients = l1 ++ (n, cid) :: l2)
    (h1 : ∀ p ∈ l1, p.2 ≠ cid) (h2 : ∀ p ∈ l2, p.2 ≠ cid)
    (hsess : alook s.sessions cid = some c)
    (hnick : c.nickname ≠ "") :
    (c.status ≠ StatusInvisible →
      alook (broadcastUserList s).sessions cid
        = some (clientSend c { type := TypeUserList, users := userListUsers s }))
    ∧ (c.status = StatusInvisible →
      alook (broadcastUserList s).sessions cid = some c) := by
  constructor
  · intro hst
    unfold broadcastUserList broadcastMessage
    rw [hclients]
    exact broadcastOver_deliver l1 l2 n cid s _ "" c h1 h2 hsess hnick
      (fun hand => hst hand.1)
  · intro hst
    unfold broadcastUserList broadcastMessage
    rw [hclients]
    exact broadcastOver_skip l1 l2 n cid s _ "" c h1 h2 hsess
      (Or.inr ⟨hst, fun h => hnick h.symm⟩)

/-- C7 witness: the amended theorem at `sOneInvisible`, for the INVISIBLE
session "bob" (skipped) — its queue is untouched. -/
theorem C7_user_list_witness :
    alook (broadcastUserList sOneInvisible).sessions 2 = some cBobInvisible :=
  (C7_user_list sOneInvisible [("alice", 1)] [] "bob" 2 cBobInvisible
    rfl (by decide) (by decide) (by decide) (by decide)).2 (by decide)

/-- C2, counterexample.  Transfer `f1` needs one chunk; its recipient
"bob" has disconnected.  Processing the final FILE_CHUNK records the chunk
(the received set reaches `TotalChunks`), but because the recipient lookup
fails the completion check is never reached: no FILE_COMPLETE is enqueued
anywhere and the transfer is NOT removed — contradicting "the
emission/removal happens regardless of whether the recipient is still
connected". -/
theorem C2_counterexample :
    (alook (handleFileChunk sTransferGone 1 mChunk).fileTransfers "f1").map
      ftIsComplete = some true
    ∧ (alook (handleFileChunk sTransferGone 1 mChunk).fileTransfers "f1").isSome
      = true
    ∧ (alook (handleFileChunk sTransferGone 1 mChunk).sessions 1).map
      Client.sendChan = some [] := by
  decide

/-- C2, amended: when a FILE_CHUNK completes a transfer *and the recipient
is still connected*, FILE_COMPLETE is enqueued to the recipient and to the
chunk-sending session and the transfer is removed (after which further
chunks with that FileID are dropped silently, so the emission happens once);
when the chunk does not complete the transfer the registry entry stays (the
chunk path never removes without emitting); and when the recipient is
disconnected the chunk is only recorded — no forwarding, no emission, no
removal. -/
theorem C2_file_complete (s : ServerState) (cid : Nat) (msg : Message)
    (ft : FileTransfer)
    (hft : alook s.fileTransfers msg.fileID = some ft) :
    (getClient
        { s with
          fileTransfers :=
            alSet s.fileTransfers msg.fileID (ftAddChunk ft msg.chunkNum msg.data) }
        (ftAddChunk ft msg.chunkNum msg.data).recipient = none →
      handleFileChunk s cid msg
        = { s with
            fileTransfers :=
              alSet s.fileTransfers msg.fileID (ftAddChunk ft msg.chunkNum msg.data) })
    ∧ (∀ rcid rc,
        getClient
          { s with
            fileTransfers :=
              alSet s.fileTransfers msg.fileID (ftAddChunk ft msg.chunkNum msg.data) }
          (ftAddChunk ft msg.chunkNum msg.data).recipient = some (rcid, rc) →
        rcid ≠ cid →
        (ftIsComplete (ftAddChunk ft msg.chunkNum msg.data) = true →
          alook (handleFileChunk s cid msg).fileTransfers msg.fileID = none
          ∧ alook (handleFileChunk s cid msg).sessions rcid
              = some (clientSend (clientSend rc msg)
                  { type := TypeFileComplete, fileID := msg.fileID,
                    filename := (ftAddChunk ft msg.chunkNum msg.data).filename })
          ∧ alook (handleFileChunk s cid msg).sessions cid
              = (alook s.sessions cid).map (fun cc => clientSend cc
                  { type := TypeFileComplete, fileID := msg.fileID,
                    filename := (ftAddChunk ft msg.chunkNum msg.data).filename }))
        ∧ (ftIsComplete (ftAddChunk ft msg.chunkNum msg.data) = false →
          alook (handleFileChunk s cid msg).fileTransfers msg.fileID
            = some (ftAddChunk ft msg.chunkNum msg.data)
          ∧ alook (handleFileChunk s cid msg).sessions cid = alook s.sessions cid))
    ∧ (∀ (s2 : ServerState) (cid2 : Nat),
        alook s2.fileTransfers msg.fileID = none →
        handleFileChunk s2 cid2 msg = s2) := by
  refine ⟨?_, ?_, ?_⟩
  · intro hnone
    unfold handleFileChunk
    rw [hft]
    dsimp only
    rw [hnone]
  · intro rcid rc hrc hne
    have hsr : alook s.sessions rcid = some rc := (getClient_some hrc).2
    constructor
    · intro hcomp
      have hpost : handleFileChunk s cid msg
          = { sendTo
                (sendTo
                  (sendTo
                    { s with
                      fileTransfers :=
                        alSet s.fileTransfers msg.fileID
                          (ftAddChunk ft msg.chunkNum msg.data) }
                    rcid msg)
                  rcid
                  { type := TypeFileComplete, fileID := msg.fileID,
                    filename := (ftAddChunk ft msg.chunkNum msg.data).filename })
                cid
                { type := TypeFileComplete, fileID := msg.fileID,
                  filename := (ftAddChunk ft msg.chunkNum msg.data).filename }
              with
              fileTransfers :=
                alErase
                  (alSet s.fileTransfers msg.fileID
                    (ftAddChunk ft msg.chunkNum msg.data))
                  msg.fileID } := by
        unfold handleFileChunk
        rw [hft]
        dsimp only
        rw [hrc]
        dsimp only
        rw [if_pos hcomp]
        rfl
      refine ⟨?_, ?_, ?_⟩
      · rw [hpost]
        exact alook_alErase_self _ _
      · rw [hpost]
        show alook (sendTo (sendTo (sendTo _ rcid msg) rcid _) cid _).sessions rcid = _
        rw [alook_sendTo_ne _ _ _ _ hne, alook_sendTo_self, alook_sendTo_self, hsr]
        rfl
      · rw [hpost]
        show alook (sendTo (sendTo (sendTo _ rcid msg) rcid _) cid _).sessions cid = _
        rw [alook_sendTo_self, alook_sendTo_ne _ _ _ _ (Ne.symm hne),
          alook_sendTo_ne _ _ _ _ (Ne.symm hne)]
    · intro hncomp
      have hpost : handleFileChunk s cid msg
          = sendTo
              { s with
                fileTransfers :=
                  alSet s.fileTransfers msg.fileID
                    (ftAddChunk ft msg.chunkNum msg.data) }
              rcid msg := by
        unfold handleFileChunk
        rw [hft]
        dsimp only
        rw [hrc]
        dsimp only
        rw [if_neg (by rw [hncomp]; exact Bool.false_ne_true)]
      rw [hpost]
      refine ⟨?_, ?_⟩
      · rw [sendTo_fileTransfers]
        exact alook_alSet_self _ _ _
      · rw [alook_sendTo_ne _ _ _ _ (Ne.symm hne)]
  · intro s2 cid2 hmiss
    unfold handleFileChunk
    rw [hmiss]

/-- C2 witness: completion with the recipient connected, on the concrete
live-transfer state. -/
theorem C2_file_complete_witness :
    alook (handleFileChunk sTransferLive 1 mChunk).fileTransfers "f1" = none :=
  (((C2_file_complete sTransferLive 1 mChunk
      { fileID := "f1", filename := "a.bin", filesize := 10, sender := "alice",
        recipient := "bob", totalChunks := 1 }
      (by decide)).2.1 2 cBob (by decide) (by decide)).1 (by decide)).1

/-- C6: the claim matches the spec ("decremented on completion, timeout
cleanup, or disconnect") and the code's own error message ("concurrent
transfers per user"), but the FILE_CHUNK completion path never touches the
rate limiter.  At the failing input, the transfer completes (FILE_COMPLETE
is enqueued to both endpoints and the transfer removed) yet "alice"'s
counter stays at 1; the timeout-cleanup path, by contrast, decrements it
to 0. -/
theorem C6_transfer_counter_leak :
    alGet0 (handleFileChunk sTransferLive 1 mChunk).rateLimiter.transfersPerUser
      "alice" = 1
    ∧ alook (handleFileChunk sTransferLive 1 mChunk).fileTransfers "f1" = none
    ∧ (alook (handleFileChunk sTransferLive 1 mChunk).sessions 1).map
        (fun cc => cc.sendChan.map Message.type) = some [TypeFileComplete]
    ∧ (alook (handleFileChunk sTransferLive 1 mChunk).sessions 2).map
        (fun cc => cc.sendChan.map Message.type)
      = some [TypeFileChunk, TypeFileComplete]
    ∧ alGet0 (cleanupFileTransfers sTransferLive 400000).rateLimiter.transfersPerUser
        "alice" = 0 := by
  decide

/-- C9: the admission counters are incremented for every accepted
connection, but `UnregisterClient` returns before touching anything when
the session's nickname is still empty — so for a connection that never
registered the counters are never decremented, while a registered session's
teardown does decrement the total. -/
theorem C9_admission_counters (s : ServerState) (cid : Nat) (c : Client)
    (addr : Addr) (now : Nat)
    (hsess : alook s.sessions cid = some c) (hnick : c.nickname = "") :
    unregisterClient s cid now = s
    ∧ (handleNewConnection s addr).1.rateLimiter.totalConnections
        = s.rateLimiter.totalConnections + 1
    ∧ alGet0 (handleNewConnection s addr).1.rateLimiter.connectionsByIP addr.ip
        = alGet0 s.rateLimiter.connectionsByIP addr.ip + 1
    ∧ (∀ (s2 : ServerState) (cid2 : Nat) (c2 : Client) (a : Addr),
        alook s2.sessions cid2 = some c2 → c2.nickname ≠ "" →
        c2.remoteAddr = some a →
        (unregisterClient s2 cid2 now).rateLimiter.totalConnections
          = s2.rateLimiter.totalConnections - 1) := by
  refine ⟨?_, rfl, ?_, ?_⟩
  · unfold unregisterClient
    rw [hsess]
    dsimp only
    rw [if_pos hnick]
  · show alGet0 (alSet s.rateLimiter.connectionsByIP addr.ip
      (alGet0 s.rateLimiter.connectionsByIP addr.ip + 1)) addr.ip = _
    unfold alGet0
    rw [alook_alSet_self]
    rfl
  · intro s2 cid2 c2 a h1 h2 h3
    have hrl : ∀ (rids : List String) (st : ServerState),
        (rids.foldl (fun acc rid =>
          broadcastToRoom
            { acc with
              rooms := alUpd acc.rooms rid (fun r => roomRemoveMember r c2.nickname) }
            rid
            { newTextMessage "Server" ""
                (c2.nickname ++ " has disconnected from the room") now
              with room := rid }) st).rateLimiter = st.rateLimiter := by
      intro rids st
      refine foldl_preserve _ ServerState.rateLimiter ?_ rids st
      intro acc rid
      rw [broadcastToRoom_rateLimiter]
    unfold unregisterClient
    rw [h1]
    dsimp only
    rw [if_neg h2, h3]
    dsimp only
    rw [removeConnection_total, rlRemoveUser_totalConnections,
      broadcastUserList_rateLimiter, broadcastMessage_rateLimiter, hrl]

/-- C9 witness: session 9 of `sHalfOpen` never registered; unregistering
it is a complete no-op (no counter is decremented), while a new accepted
connection bumps both counters. -/
theorem C9_admission_counters_witness :
    unregisterClient sHalfOpen 9 99 = sHalfOpen :=
  (C9_admission_counters sHalfOpen 9 { id := 9 } { ip := "10.0.0.7", port := "4" }
    99 (by decide) (by decide)).1

/-- C10: an inbound broadcast TEXT frame from a session whose CONNECT
never succeeded is not rejected: the read pump stamps the empty nickname
as `Sender`, the dispatcher rate-limits it under the empty-string nickname
(creating a limiter entry for "" and counting the message), validates it,
and hands it to the broadcast, which enqueues it — with `Sender` = "" — to
registered non-invisible clients. -/
theorem C10_unregistered_text (s : ServerState) (cid : Nat) (c : Client)
    (rawMsg : Message) (now : Nat) (l1 l2 : List (String × Nat)) (n2 : String)
    (rcid : Nat) (rc : Client)
    (hsess : alook s.sessions cid = some c)
    (hnick : c.nickname = "")
    (htype : rawMsg.type = TypeText)
    (hrecip : rawMsg.recipient = "*" ∨ rawMsg.recipient = "")
    (hnorate : alook s.rateLimiter.messageRates "" = none)
    (hlen0 : ¬ blen rawMsg.content = 0)
    (hlenMax : blen rawMsg.content ≤ MaxMessageSize)
    (hclients : s.clients = l1 ++ (n2, rcid) :: l2)
    (h1 : ∀ p ∈ l1, p.2 ≠ rcid) (h2 : ∀ p ∈ l2, p.2 ≠ rcid)
    (hrsess : alook s.sessions rcid = some rc)
    (hrnick : rc.nickname ≠ "") (hrstatus : rc.status ≠ StatusInvisible) :
    alook (readPumpDeliver s cid rawMsg now).sessions rcid
      = some (clientSend rc { rawMsg with sender := "", timestamp := now })
    ∧ alook (readPumpDeliver s cid rawMsg now).rateLimiter.messageRates ""
      = some { messages := 1, lastReset := now } := by
  have hcs : canSendMessage s.rateLimiter "" now
      = (none,
        { s.rateLimiter with
          messageRates :=
            alSet s.rateLimiter.messageRates "" { messages := 1, lastReset := now } }) := by
    unfold canSendMessage
    rw [hnorate]
    dsimp only [Option.getD_none]
    rw [if_neg (show ¬ now - now ≥ OneSecond from by
      rw [Nat.sub_self]; unfold OneSecond; omega)]
    rw [if_neg (show ¬ ({ messages := 0, lastReset := now } :
      UserRateLimit).messages ≥ MessagesPerSecond from by
      unfold MessagesPerSecond; dsimp only; omega)]
  have hvm : ValidateMessage rawMsg.content = none := by
    unfold ValidateMessage
    rw [if_neg hlen0, if_neg (by omega)]
  have hred : readPumpDeliver s cid rawMsg now
      = broadcastMessage
          { s with
            rateLimiter :=
              { s.rateLimiter with
                messageRates :=
                  alSet s.rateLimiter.messageRates ""
                    { messages := 1, lastReset := now } } }
          { rawMsg with sender := "", timestamp := now } "" := by
    unfold readPumpDeliver
    rw [hsess]
    dsimp only
    rw [hnick]
    unfold handleMessage
    rw [hsess]
    dsimp only
    rw [htype]
    rw [if_neg (by decide)]
    simp only [if_true]
    rw [hnick, hcs]
    dsimp only
    rw [hvm]
    dsimp only
    rcases hrecip with h | h <;>
      rw [h] <;> simp only [if_true] <;> rfl
  rw [hred]
  constructor
  · unfold broadcastMessage
    rw [show ({ s with
        rateLimiter :=
          { s.rateLimiter with
            messageRates :=
              alSet s.rateLimiter.messageRates ""
                { messages := 1, lastReset := now } } } : ServerState).clients
      = l1 ++ (n2, rcid) :: l2 from hclients]
    refine broadcastOver_deliver l1 l2 n2 rcid _ _ "" rc h1 h2 hrsess hrnick ?_
    intro hand
    exact hrstatus hand.1
  · rw [broadcastMessage_rateLimiter]
    dsimp only
    exact alook_alSet_self _ _ _

/-- C10 witness: session 9 of `sHalfOpen` never connected; its broadcast
TEXT is still delivered to "carol" with the empty sender, and a rate entry
for "" is created. -/
theorem C10_unregistered_text_witness :
    alook (readPumpDeliver sHalfOpen 9
        { type := TypeText, recipient := "*", content := "hi" } 40).sessions 3
      = some (clientSend cCarol
          { type := TypeText, recipient := "*", content := "hi",
            sender := "", timestamp := 40 }) :=
  (C10_unregistered_text sHalfOpen 9 { id := 9 }
    { type := TypeText, recipient := "*", content := "hi" } 40 [] [] "carol" 3 cCarol
    (by decide) (by decide) (by decide) (Or.inl (by decide)) (by decide) (by decide)
    (by decide) rfl (by decide) (by decide) (by decide) (by decide) (by decide)).1

/-- C3 witness: the amended theorem at a fresh window for "alice" and the
exhausted-budget state for "bob". -/
theorem C3_rate_limit_witness :
    (runSends { messageRates := [("alice", { messages := 0, lastReset := 0 })] }
        "alice" [0, 500]).1.count true ≤ MessagesPerSecond
    ∧ alook (handleMessage sRate 5 mText 500).1.sessions 5
        = some (clientSend cRateBob (newErrorMessage "Server" mText.sender eRate 500))
    ∧ ∀ cid', cid' ≠ 5 →
        alook (handleMessage sRate 5 mText 500).1.sessions cid'
          = alook sRate.sessions cid' :=
  C3_rate_limit "alice" [0, 500]
    { messageRates := [("alice", { messages := 0, lastReset := 0 })] } 0
    sRate 5 cRateBob mText 500 eRate
    (by decide) (by decide) (by decide) (by decide) (by decide)

/-- C5, counterexample.  A fresh session's successful CONNECT enqueues, in
order: the USER_LIST (sent to everyone, the new client included, while the
registry already holds it), the welcome TEXT, and only then the
dispatcher's own "Connected successfully" TEXT — the reverse of the
claimed order, whose first message should have been "Connected
successfully". -/
theorem C5_counterexample :
    ((alook (handleMessage sFresh 1
        { type := TypeConnect, sender := "", content := "alice" } 7).1.sessions 1).map
      (fun cc => cc.sendChan.map Message.type))
      = some [TypeUserList, TypeText, TypeText]
    ∧ ((alook (handleMessage sFresh 1
        { type := TypeConnect, sender := "", content := "alice" } 7).1.sessions 1).map
      (fun cc => cc.sendChan.map Message.content))
      = some ["", "Welcome to the chat, alice!", "Connected successfully"]
    ∧ TypeUserList ≠ TypeText := by
  decide

/-- C5, amended: for a fresh (ACTIVE, non-aliased) session whose CONNECT
with a fresh valid nickname succeeds and whose queue has room, the messages
enqueued to its own outbound queue are, in order: the USER_LIST, then the
welcome TEXT, then the TEXT "Connected successfully" (and the queue is the
FIFO the write pump drains, so this is also the wire order). -/
theorem C5_connect_reply_order (s : ServerState) (cid : Nat) (c : Client)
    (n w : String) (now : Nat)
    (hsess : alook s.sessions cid = some c)
    (hval : ValidateNickname n = none)
    (hfree : alook s.clients n = none)
    (hnm : ∀ p ∈ s.clients, p.2 ≠ cid)
    (hstatus : c.status = StatusActive)
    (hlen : c.sendChan.length + 3 ≤ 256) :
    ∃ us : List String,
      alook (handleMessage s cid { type := TypeConnect, sender := w, content := n }
        now).1.sessions cid
        = some
            { c with
              nickname := n,
              sendChan :=
                c.sendChan
                  ++ [{ type := TypeUserList, users := us },
                      newTextMessage "Server" n
                        ("Welcome to the chat, " ++ n ++ "!") now,
                      newTextMessage "Server" w "Connected successfully" now] } := by
  have hne : n ≠ "" := validNickname_ne_empty hval
  rw [handleMessage_connect_success s cid c n w now hsess hval hfree]
  set S1 : ServerState := { s with
    sessions := alUpd s.sessions cid (fun cc => { cc with nickname := n }),
    clients := alSet s.clients n cid } with hS1
  refine ⟨userListUsers S1, ?_⟩
  have hc1 : alook S1.sessions cid = some { c with nickname := n } := by
    rw [hS1]
    dsimp only
    rw [alook_alUpd_self, hsess]
    rfl
  have hclients1 : S1.clients = s.clients ++ (n, cid) :: [] := by
    rw [hS1]
    dsimp only
    exact alSet_absent cid hfree
  have h2 : alook (broadcastUserList S1).sessions cid
      = some (clientSend { c with nickname := n }
          { type := TypeUserList, users := userListUsers S1 }) := by
    unfold broadcastUserList broadcastMessage
    rw [hclients1]
    refine broadcastOver_deliver s.clients [] n cid _ _ "" _ hnm (by simp) hc1
      ?_ ?_
    · show n ≠ ""
      exact hne
    · intro hand
      have hinv : c.status = StatusInvisible := hand.1
      rw [hstatus] at hinv
      exact absurd hinv (by decide)
  have h3 : alook (sendTo (broadcastUserList S1) cid
        (newTextMessage "Server" n ("Welcome to the chat, " ++ n ++ "!") now)).sessions cid
      = some (clientSend (clientSend { c with nickname := n }
          { type := TypeUserList, users := userListUsers S1 })
          (newTextMessage "Server" n ("Welcome to the chat, " ++ n ++ "!") now)) := by
    rw [alook_sendTo_self, h2]
    rfl
  have h4 : alook (broadcastMessage
        (sendTo (broadcastUserList S1) cid
          (newTextMessage "Server" n ("Welcome to the chat, " ++ n ++ "!") now))
        (newBroadcastMessage "Server" (n ++ " has joined the chat") now) n).sessions cid
      = some (clientSend (clientSend { c with nickname := n }
          { type := TypeUserList, users := userListUsers S1 })
          (newTextMessage "Server" n ("Welcome to the chat, " ++ n ++ "!") now)) := by
    unfold broadcastMessage
    rw [show (sendTo (broadcastUserList S1) cid
        (newTextMessage "Server" n ("Welcome to the chat, " ++ n ++ "!") now)).clients
      = s.clients ++ (n, cid) :: [] from by
        rw [sendTo_clients, broadcastUserList_clients, hclients1]]
    refine broadcastOver_skip s.clients [] n cid _ _ n _ hnm (by simp) h3 (Or.inl ?_)
    show (clientSend (clientSend { c with nickname := n } _) _).nickname = n
    rw [clientSend_nickname, clientSend_nickname]
  rw [alook_sendTo_self, h4]
  have e1 : clientSend { c with nickname := n }
      { type := TypeUserList, users := userListUsers S1 }
      = { c with
          nickname := n,
          sendChan :=
            c.sendChan ++ [{ type := TypeUserList, users := userListUsers S1 }] } :=
    clientSend_append _ _ (by dsimp only; omega)
  have e2 : clientSend
      { c with
        nickname := n,
        sendChan :=
          c.sendChan ++ [{ type := TypeUserList, users := userListUsers S1 }] }
      (newTextMessage "Server" n ("Welcome to the chat, " ++ n ++ "!") now)
      = { c with
          nickname := n,
          sendChan :=
            (c.sendChan ++ [{ type := TypeUserList, users := userListUsers S1 }])
              ++ [newTextMessage "Server" n ("Welcome to the chat, " ++ n ++ "!") now] } :=
    clientSend_append _ _ (by
      simp only [List.length_append, List.length_singleton]
      omega)
  have e3 : clientSend
      { c with
        nickname := n,
        sendChan :=
          (c.sendChan ++ [{ type := TypeUserList, users := userListUsers S1 }])
            ++ [newTextMessage "Server" n ("Welcome to the chat, " ++ n ++ "!") now] }
      (newTextMessage "Server" w "Connected successfully" now)
      = { c with
          nickname := n,
          sendChan :=
            ((c.sendChan ++ [{ type := TypeUserList, users := userListUsers S1 }])
              ++ [newTextMessage "Server" n ("Welcome to the chat, " ++ n ++ "!") now])
              ++ [newTextMessage "Server" w "Connected successfully" now] } :=
    clientSend_append _ _ (by
      simp only [List.length_append, List.length_singleton]
      omega)
  simp only [Option.map_some']
  rw [e1, e2, e3]
  simp only [List.append_assoc, List.cons_append, List.nil_append]

/-- C5 witness: the amended order at the concrete fresh-session state. -/
theorem C5_connect_reply_order_witness :
    ∃ us : List String,
      alook (handleMessage sFresh 1
        { type := TypeConnect, sender := "", content := "alice" } 7).1.sessions 1
        = some
            { id := 1,
              nickname := "alice",
              sendChan :=
                [{ type := TypeUserList, users := us },
                 newTextMessage "Server" "alice" "Welcome to the chat, alice!" 7,
                 newTextMessage "Server" "" "Connected successfully" 7] } :=
  C5_connect_reply_order sFresh 1 { id := 1 } "alice" "" 7
    (by decide) (by decide) (by decide) (by decide) (by decide) (by decide)

end TcpChat
